import Mathlib

/-!
Verification model of the Blitz99 games Solana program
(`src/programs/blitz_games/src/lib.rs`).

Modelling conventions:

* `u64` values are `Nat`s; each arithmetic operation of the source is
  translated explicitly: `saturating_add` / `saturating_mul` become `satAdd` /
  `satMul` (clamped at `U64MAX`), `saturating_sub` is truncated `Nat`
  subtraction, `wrapping_add` is `wrapAdd`, and the plain `+` / `-=` / `+=`
  operators of the source (which abort the whole transaction on
  overflow/underflow) become `chkAdd` / `chkSub` in the `Except` monad.
* Public keys are abstracted as `Nat`, with `systemProgramID = 0` standing for
  `solana_program::system_program::ID`.
* Byte strings (seeds, nonces, hashes) are `List Nat`; the cryptographic hash
  functions (SHA-256 for commitments, Blake3 for seed mixing) are opaque
  function parameters of the definitions that use them, since no claim
  depends on their internals.
* Each Anchor instruction is a pure function from its pre-state and inputs to
  `Except BlitzError post-state`; an `Except.error` result models the
  all-or-nothing revert of the Solana runtime (including arithmetic panics).
* Account closing (`#[account(close = …)]`) transfers the closed account's
  lamports to the target after the instruction body runs; for `claim_forfeit`
  (`close = pool`, lib.rs:1158) this is modelled explicitly because it changes
  the pool's physical balance after `sync_pool_balance` already ran.  The
  reveal and refund instructions close the session to the player, which does
  not touch the pool.
-/

/-- Error codes of the program (`#[error_code] pub enum BlitzError`), plus
`Overflow` standing for a checked-arithmetic abort of the runtime. -/
inductive BlitzError where
  | ContractPaused
  | PoolTooLow
  | BetTooSmall
  | BetExceedsLimit
  | InvalidGameType
  | InvalidGameConfig
  | InvalidCoordinate
  | InvalidRadius
  | InvalidDiceTarget
  | InvalidTowerFloors
  | InvalidReferrer
  | SessionNotPending
  | WrongGameType
  | TooEarlyToReveal
  | RevealWindowExpired
  | SlotTooOld
  | InvalidNonce
  | SlotHashNotFound
  | InsufficientLiquidity
  | PayoutExceedsPoolCap
  | ForfeitNotAvailable
  | NotSessionPlayer
  | AccountingBroken
  | TimelockActive
  | NoWithdrawalRequest
  | PendingWithdrawal
  | WithdrawalTooLarge
  | SessionExpired
  | Overflow
  deriving DecidableEq

/-- `u64::MAX`. -/
def U64MAX : Nat := 18446744073709551615

/-- `u32::MAX`. -/
def U32MAX : Nat := 4294967295

/-- `u64::saturating_add`. -/
def satAdd (a b : Nat) : Nat := min (a + b) U64MAX

/-- `u64::saturating_mul`. -/
def satMul (a b : Nat) : Nat := min (a * b) U64MAX

/-- `u64::wrapping_add`. -/
def wrapAdd (a b : Nat) : Nat := (a + b) % (U64MAX + 1)

/-- Checked `u64` addition: the Solana runtime (or the overflow check of the
compiled program) aborts the transaction when a plain `+` or `+=` overflows. -/
def chkAdd (a b : Nat) : Except BlitzError Nat :=
  if a + b ≤ U64MAX then .ok (a + b) else .error .Overflow

/-- Checked `u64` subtraction: a plain `-=` that would underflow aborts the
transaction. -/
def chkSub (a b : Nat) : Except BlitzError Nat :=
  if b ≤ a then .ok (a - b) else .error .Overflow

-- Constants of the source (lib.rs:23-39).
def REVEAL_WINDOW : Nat := 1000
def MIN_POOL : Nat := 100000000
def JACKPOT_MIN_BET : Nat := 20000000
def JACKPOT_MIN_POOL : Nat := 100000000
def JACKPOT_RATE : Nat := 43
def JACKPOT_BASE : Nat := 10000

/-- `solana_program::system_program::ID`, under the abstraction of public keys
as naturals. -/
def systemProgramID : Nat := 0

/-- `pub struct WithdrawalRequest` (lib.rs:1267-1272). -/
structure WithdrawalRequest where
  amount : Nat
  requested_at : Int
  unlocks_at : Int
  deriving DecidableEq

/-- `pub struct GlobalPool` (lib.rs:1219-1237).  The `authority`, `bump` and
authority-transfer fields are identity/PDA plumbing not touched by any claim
and are omitted. -/
structure GlobalPool where
  total_balance : Nat
  jackpot_balance : Nat
  total_wagered : Nat
  house_fees_earned : Nat
  paused : Bool
  withdrawal_request : Option WithdrawalRequest
  total_bets : Nat
  total_wins : Nat
  total_jackpot_won : Nat
  biggest_win : Nat
  deriving DecidableEq

/-- `pub struct GameSession` (lib.rs:1240-1255); `bump` omitted. -/
structure GameSession where
  player : Nat
  referrer : Nat
  bet_lamports : Nat
  commitment : List Nat
  commit_slot : Nat
  resolve_slot : Nat
  forfeit_slot : Nat
  game_type : Nat
  game_state : Nat
  target_x : Nat
  target_y : Nat
  target_radius : Nat
  deriving DecidableEq

/-- Byte `i` of a byte string (`seed[i]`). -/
def byteAt (s : List Nat) (i : Nat) : Nat := s.getD i 0

/-- `uN::from_le_bytes` of `len` bytes of `s` starting at `start`. -/
def leBytes (s : List Nat) (start len : Nat) : Nat :=
  (List.range len).foldr (fun i acc => acc * 256 + byteAt s (start + i)) 0

/-- `u8::abs_diff`. -/
def absDiff (a b : Nat) : Nat := max a b - min a b

/-- `fn resolve_dice` (lib.rs:819-830): returns
`(won, gross_payout, roll, target, is_over)`. -/
def resolve_dice (seed : List Nat) (session : GameSession) :
    Bool × Nat × Nat × Nat × Bool :=
  let roll := leBytes seed 0 8 % 100
  let target := session.target_x
  let is_over := session.target_y == 1
  let won := if is_over then decide (roll > target) else decide (roll < target)
  let win_chance := if is_over then 99 - target else target
  let gross_payout := satMul session.bet_lamports 9500 / max win_chance 1 / 100
  (won, if won then gross_payout else 0, roll, target, is_over)

/-- `fn resolve_sector` (lib.rs:832-846): returns
`(won, gross_payout, strike_x, strike_y)`. -/
def resolve_sector (seed : List Nat) (session : GameSession) :
    Bool × Nat × Nat × Nat :=
  let strike_x := byteAt seed 0 % 16
  let strike_y := byteAt seed 1 % 16
  let dist_x := absDiff session.target_x strike_x
  let dist_y := absDiff session.target_y strike_y
  let max_dist := max dist_x dist_y
  let won := decide (max_dist ≤ session.target_radius)
  let gross_payout :=
    if won then
      let width := session.target_radius * 2 + 1
      let area := width * width
      let multiplier_bps := 256 * 10000 / area * 95 / 100
      satMul session.bet_lamports multiplier_bps / 10000
    else 0
  (won, gross_payout, strike_x, strike_y)

/-- `fn resolve_tower` (lib.rs:848-867): returns
`(won, gross_payout, death_floor, path, traps)`.  The `for i in 0..floors`
loop with its `(death_floor, trap_bits)` state becomes a fold over
`List.range floors`. -/
def resolve_tower (seed : List Nat) (session : GameSession) :
    Bool × Nat × Nat × Nat × Nat :=
  let floors := session.target_x
  let path_bits := session.target_y
  let st := (List.range floors).foldl
    (fun (st : Nat × Nat) i =>
      let trap_lane := byteAt seed i % 2
      let traps := st.2 ||| (trap_lane <<< i)
      let player_choice := (path_bits >>> i) &&& 1
      let death := if st.1 == 0 && player_choice == trap_lane then i + 1 else st.1
      (death, traps)) (0, 0)
  let death_floor := st.1
  let won := death_floor == 0
  let gross_payout := satMul (satMul session.bet_lamports 95) (1 <<< floors) / 100
  (won, if won then gross_payout else 0, death_floor, path_bits, st.2)

/-- `fn resolve_flip` (lib.rs:872-877): returns `(won, gross_payout, roll)`. -/
def resolve_flip (seed : List Nat) (session : GameSession) :
    Bool × Nat × Nat :=
  let roll := leBytes seed 0 8 % 100
  let won := decide (roll < 50)
  let gross_payout := satMul session.bet_lamports 190 / 100
  (won, if won then gross_payout else 0, roll)

/-- `fn is_valid_referrer` (lib.rs:673-675). -/
def is_valid_referrer (referrer player : Nat) : Bool :=
  referrer != systemProgramID && referrer != player

/-- `fn get_fee_bps` (lib.rs:693-695):
`(house_bps, ref_bps, jackpot_bps, treasury_bps)`. -/
def get_fee_bps (_game_type : Nat) : Nat × Nat × Nat × Nat := (200, 200, 100, 0)

/-- `fn get_max_bet` (lib.rs:903-925). -/
def get_max_bet (pool game : Nat) : Nat :=
  if pool < 5000000000 then
    match game with
    | 0 => satMul pool 1 / 100
    | 1 => satMul pool 1 / 100
    | 2 => satMul pool 1 / 100
    | 3 => satMul pool 1 / 100
    | _ => 0
  else
    match game with
    | 0 => satMul pool 3 / 100
    | 1 => satMul pool 2 / 100
    | 2 => satMul pool 3 / 100
    | 3 => satMul pool 2 / 100
    | _ => 0

/-- `fn get_max_payout_cap` (lib.rs:940-957). -/
def get_max_payout_cap (pool : Nat) : Nat :=
  let cap :=
    if pool < 5000000000 then satMul pool 3 / 100
    else if pool < 20000000000 then satMul pool 5 / 100
    else if pool < 50000000000 then satMul pool 8 / 100
    else satMul pool 10 / 100
  min cap 25000000000

/-- `fn get_resolve_slot` (lib.rs:959-966). -/
def get_resolve_slot (slot bet : Nat) : Nat :=
  slot + 5 +
    (if bet ≤ 50000000 then 5
     else if bet ≤ 500000000 then 15 + bet / 50000000
     else 50)

/-- `fn get_worst_payout` (lib.rs:968-998); the config array `[u8; 3]` is a
triple. -/
def get_worst_payout (bet game : Nat) (config : Nat × Nat × Nat) : Nat :=
  match game with
  | 0 => satMul bet 190 / 100
  | 1 =>
    let radius := if config.2.2 ≤ 3 then config.2.2 else 0
    let width := radius * 2 + 1
    let area := width * width
    let multiplier_bps := 256 * 10000 / area * 95 / 100
    satMul bet multiplier_bps / 10000
  | 2 =>
    let target := if 2 ≤ config.1 ∧ config.1 ≤ 97 then config.1 else 2
    let is_over := config.2.1 == 1
    let win_chance := if is_over then 99 - target else target
    let chance := max win_chance 1
    satMul bet 9500 / chance / 100
  | 3 =>
    let floors := if 1 ≤ config.1 ∧ config.1 ≤ 6 then config.1 else 1
    satMul (satMul bet 95) (1 <<< floors) / 100
  | _ => 0

/-- `fn sync_pool_balance` (lib.rs:679-687).  `lamports` is the pool account's
physical balance, `rent` the rent-exempt reserve for its data size. -/
def sync_pool_balance (pool : GlobalPool) (lamports rent : Nat) :
    Except BlitzError GlobalPool :=
  let physical := lamports - rent
  let reserved := satAdd pool.house_fees_earned pool.jackpot_balance
  if physical ≥ reserved then
    .ok { pool with total_balance := physical - reserved }
  else .error .AccountingBroken

/-- STEP 1 of `fn settle_outcome` (lib.rs:719-742): the pure fee split.
Returns `(house_cut, ref_cut, jackpot_cut)`.  `refLamports` is the referrer
account's standing balance (`referrer_ai.lamports()`). -/
def settleFees (bet referrer player refLamports game_type : Nat) :
    Nat × Nat × Nat :=
  let hasRef := is_valid_referrer referrer player
  let bps := get_fee_bps game_type
  let jackpot_cut := satMul bet bps.2.2.1 / 10000
  let house_cut := satMul bet (bps.1 + bps.2.2.2) / 10000
  if hasRef then
    let potential_ref := satMul bet bps.2.1 / 10000
    if refLamports ≥ 50000000 && potential_ref ≥ 1000000 then
      (house_cut, potential_ref, jackpot_cut)
    else
      (satAdd house_cut potential_ref, 0, jackpot_cut)
  else
    (satAdd house_cut (satMul bet bps.2.1 / 10000), 0, jackpot_cut)

/-- STEP 1.5 of `fn settle_outcome` (lib.rs:744-756): the seed-based jackpot
trigger.  Returns the prize (0 when not triggered). -/
def jackpotPrize (bet jackpot_balance : Nat) (seed : List Nat) : Nat :=
  if bet ≥ JACKPOT_MIN_BET ∧ jackpot_balance ≥ JACKPOT_MIN_POOL then
    let jackpot_roll := leBytes seed 24 4
    let threshold := min (satMul bet JACKPOT_RATE / JACKPOT_BASE) (U32MAX / 200)
    if jackpot_roll < threshold then satMul jackpot_balance 90 / 100 else 0
  else 0

/-- Result of `fn settle_outcome`: the updated pool account plus the physical
lamports credited to the player and to the referrer. -/
structure SettleResult where
  pool : GlobalPool
  lamports : Nat
  playerReceives : Nat
  refReceives : Nat
  deriving DecidableEq

/-- `fn settle_outcome` (lib.rs:710-814).  `refCanReceive` models whether
`referrer_ai.try_borrow_mut_lamports()` succeeds (lib.rs:778-784); when it
fails the referrer cut is redirected to the player. -/
def settle_outcome (pool : GlobalPool) (lamports rent refLamports : Nat)
    (refCanReceive : Bool) (session : GameSession) (won : Bool)
    (gross_payout : Nat) (seed : List Nat) : Except BlitzError SettleResult :=
  let fees := settleFees session.bet_lamports session.referrer session.player
    refLamports session.game_type
  let house_cut := fees.1
  let ref_cut := fees.2.1
  let jackpot_cut := fees.2.2
  let jackpot_prize := jackpotPrize session.bet_lamports pool.jackpot_balance seed
  -- Total lamports leaving the pool account (lib.rs:758-760)
  match if won then chkAdd gross_payout ref_cut else .ok ref_cut with
  | .error e => .error e
  | .ok game_out =>
  match chkAdd game_out jackpot_prize with
  | .error e => .error e
  | .ok total_physical_out =>
  -- STEP 2: solvency check (lib.rs:762-769)
  let available := lamports - rent - pool.house_fees_earned - pool.jackpot_balance
  match chkAdd game_out jackpot_cut with
  | .error e => .error e
  | .ok need0 =>
  match chkAdd need0 house_cut with
  | .error e => .error e
  | .ok need =>
  if available < need then .error .InsufficientLiquidity else
  -- STEP 3: physical lamport transfers (lib.rs:771-785)
  match chkSub lamports total_physical_out with
  | .error e => .error e
  | .ok lamports2 =>
  let playerGets := (if won then gross_payout else 0) + jackpot_prize
  let refReceives := if refCanReceive then ref_cut else 0
  let playerReceives := playerGets + (if refCanReceive then 0 else ref_cut)
  -- STEP 4: internal compartment updates (lib.rs:787-791)
  let pool2 := { pool with
    jackpot_balance := satAdd (pool.jackpot_balance - jackpot_prize) jackpot_cut
    house_fees_earned := satAdd pool.house_fees_earned house_cut }
  -- STEP 4.5: transparency counters (lib.rs:793-802)
  let pool3 :=
    if won then
      { pool2 with
        total_wins := wrapAdd pool2.total_wins 1
        biggest_win :=
          if gross_payout > pool2.biggest_win then gross_payout
          else pool2.biggest_win }
    else pool2
  let pool4 :=
    if jackpot_prize > 0 then
      { pool3 with total_jackpot_won := wrapAdd pool3.total_jackpot_won jackpot_prize }
    else pool3
  -- STEP 5: sync total_balance from physical lamports (lib.rs:804-806)
  match sync_pool_balance pool4 lamports2 rent with
  | .error e => .error e
  | .ok pool5 => .ok ⟨pool5, lamports2, playerReceives, refReceives⟩

/-- The per-game-type validation block of `place_bet` (lib.rs:116-143), with
the source's error codes.  The config array `[u8; 3]` is a triple
`(config[0], config[1], config[2])`; for Tower the `u8` complement in
`game_config[1] & !mask == 0` is `255 - mask`. -/
def configCheck (game_type : Nat) (config : Nat × Nat × Nat) :
    Except BlitzError Unit :=
  if game_type = 0 ∧ config ≠ (0, 0, 0) then .error .InvalidGameConfig
  else if game_type = 1 ∧ ¬(config.1 < 16) then .error .InvalidCoordinate
  else if game_type = 1 ∧ ¬(config.2.1 < 16) then .error .InvalidCoordinate
  else if game_type = 1 ∧ ¬(config.2.2 ≤ 3) then .error .InvalidRadius
  else if game_type = 2 ∧ ¬(config.2.1 ≤ 1) then .error .InvalidGameConfig
  else if game_type = 2 ∧ config.2.1 = 0 ∧ ¬(2 ≤ config.1 ∧ config.1 ≤ 95) then
    .error .InvalidDiceTarget
  else if game_type = 2 ∧ config.2.1 ≠ 0 ∧ ¬(4 ≤ config.1 ∧ config.1 ≤ 97) then
    .error .InvalidDiceTarget
  else if game_type = 3 ∧ ¬(1 ≤ config.1 ∧ config.1 ≤ 6) then
    .error .InvalidTowerFloors
  else if game_type = 3 ∧ config.2.1 &&& (255 - ((1 <<< config.1) - 1)) ≠ 0 then
    .error .InvalidGameConfig
  else .ok ()

/-- Result of `place_bet`: updated pool account plus the freshly created
session. -/
structure PlaceBetResult where
  pool : GlobalPool
  lamports : Nat
  session : GameSession
  deriving DecidableEq

/-- `pub fn place_bet` (lib.rs:92-207).  `referrerOwner` is the owner of the
referrer account (`*ctx.accounts.referrer.owner`), `slot` is `clock.slot`.
The player→pool transfer becomes a checked addition to the pool's lamports. -/
def place_bet (pool : GlobalPool) (lamports rent slot : Nat)
    (playerKey referrerKey referrerOwner game_type : Nat)
    (commitment : List Nat) (bet_lamports : Nat) (game_config : Nat × Nat × Nat) :
    Except BlitzError PlaceBetResult :=
  if pool.paused then .error .ContractPaused
  else if ¬(pool.total_balance ≥ MIN_POOL) then .error .PoolTooLow
  else if ¬(bet_lamports ≥ 10000000) then .error .BetTooSmall
  else if ¬(game_type ≤ 3) then .error .InvalidGameType
  else
  match configCheck game_type game_config with
  | .error e => .error e
  | .ok _ =>
  let max_bet := get_max_bet pool.total_balance game_type
  if ¬(bet_lamports ≤ max_bet) then .error .BetExceedsLimit
  else if (referrerKey ≠ systemProgramID ∧ referrerKey ≠ playerKey) ∧
      referrerOwner ≠ systemProgramID then .error .InvalidReferrer
  else
  let worst := get_worst_payout bet_lamports game_type game_config
  if ¬(satAdd pool.total_balance bet_lamports ≥ worst) then
    .error .InsufficientLiquidity
  else if ¬(worst ≤ get_max_payout_cap pool.total_balance) then
    .error .PayoutExceedsPoolCap
  else
  let session : GameSession :=
    { player := playerKey
      referrer := referrerKey
      bet_lamports := bet_lamports
      commitment := commitment
      commit_slot := slot
      resolve_slot := get_resolve_slot slot bet_lamports
      forfeit_slot := slot + REVEAL_WINDOW
      game_type := game_type
      game_state := 0
      target_x := game_config.1
      target_y := game_config.2.1
      target_radius := game_config.2.2 }
  match chkAdd lamports bet_lamports with
  | .error e => .error e
  | .ok lamports2 =>
  match sync_pool_balance pool lamports2 rent with
  | .error e => .error e
  | .ok pool2 =>
  let pool3 := { pool2 with
    total_wagered := wrapAdd pool2.total_wagered bet_lamports
    total_bets := wrapAdd pool2.total_bets 1 }
  .ok ⟨pool3, lamports2, session⟩

/-- `pub fn fund_pool` (lib.rs:73-89). -/
def fund_pool (pool : GlobalPool) (lamports rent amount : Nat) :
    Except BlitzError (GlobalPool × Nat) :=
  if ¬(amount > 0) then .error .BetTooSmall
  else
  match chkAdd lamports amount with
  | .error e => .error e
  | .ok lamports2 =>
  match sync_pool_balance pool lamports2 rent with
  | .error e => .error e
  | .ok pool2 => .ok (pool2, lamports2)

/-- The SlotHashes sysvar: a list of `(slot, 32-byte hash)` entries;
`fn extract_seed` scans at most the first 512 entries for an exact slot match
(lib.rs:1017-1027). -/
def findSlotHash (entries : List (Nat × List Nat)) (slot : Nat) :
    Option (List Nat) :=
  ((entries.take 512).find? (fun e => e.1 == slot)).map (fun e => e.2)

/-- `u64::to_le_bytes`. -/
def toLE8 (n : Nat) : List Nat := (List.range 8).map (fun i => n / 256 ^ i % 256)

/-- `fn extract_seed` (lib.rs:1004-1042).  `blake` is the opaque Blake3
function applied to `nonce ‖ hash₀ ‖ hash₁ ‖ hash₂ ‖ slot bytes ‖ bet bytes`. -/
def extract_seed (entries : List (Nat × List Nat))
    (blake : List Nat → List Nat) (target_slot : Nat) (nonce : List Nat)
    (bet_lamports : Nat) : Except BlitzError (List Nat) :=
  match findSlotHash entries target_slot,
        findSlotHash entries (target_slot + 1),
        findSlotHash entries (target_slot + 2) with
  | some h0, some h1, some h2 =>
    .ok (blake (nonce ++ h0 ++ h1 ++ h2 ++ toLE8 target_slot ++ toLE8 bet_lamports))
  | _, _, _ => .error .SlotHashNotFound

/-- `fn validate_and_extract_seed` (lib.rs:882-899).  `hashFn` is the opaque
SHA-256 commitment hash, `slot` is `clock.slot`. -/
def validate_and_extract_seed (hashFn : List Nat → List Nat)
    (entries : List (Nat × List Nat)) (blake : List Nat → List Nat)
    (session : GameSession) (slot : Nat) (nonce : List Nat)
    (expected_game_type : Nat) : Except BlitzError (List Nat) :=
  if ¬(session.game_state = 0) then .error .SessionNotPending
  else if ¬(session.game_type = expected_game_type) then .error .WrongGameType
  else if ¬(slot ≥ session.resolve_slot) then .error .TooEarlyToReveal
  else if ¬(slot ≤ session.forfeit_slot) then .error .RevealWindowExpired
  else if ¬(slot - session.resolve_slot < 512) then .error .SlotTooOld
  else if ¬(hashFn nonce = session.commitment) then .error .InvalidNonce
  else extract_seed entries blake session.resolve_slot nonce session.bet_lamports

/-- Dispatch from game type to the resolver used by the matching reveal
endpoint, projected to `(won, gross_payout)`. -/
def dispatchResolve (game_type : Nat) (seed : List Nat) (session : GameSession) :
    Bool × Nat :=
  match game_type with
  | 0 => let r := resolve_flip seed session; (r.1, r.2.1)
  | 1 => let r := resolve_sector seed session; (r.1, r.2.1)
  | 2 => let r := resolve_dice seed session; (r.1, r.2.1)
  | 3 => let r := resolve_tower seed session; (r.1, r.2.1)
  | _ => (false, 0)

/-- Result of a reveal instruction: settled pool account, the session as
written before its account is closed to the player, and the transfers. -/
structure RevealResult where
  pool : GlobalPool
  lamports : Nat
  session : GameSession
  playerReceives : Nat
  refReceives : Nat
  deriving DecidableEq

/-- The common body of `reveal_flip` / `reveal_sector` / `reveal_dice` /
`reveal_tower` (lib.rs:210-224, 373-387, 408-423, 445-459): validate, resolve
with the game's resolver, settle, mark the session settled.  The session
account is then closed to the player, which does not touch the pool. -/
def reveal_game (game_type : Nat) (hashFn : List Nat → List Nat)
    (entries : List (Nat × List Nat)) (blake : List Nat → List Nat)
    (nonce : List Nat) (slot : Nat) (pool : GlobalPool)
    (lamports rent refLamports : Nat) (refCanReceive : Bool)
    (session : GameSession) : Except BlitzError RevealResult :=
  match validate_and_extract_seed hashFn entries blake session slot nonce
      game_type with
  | .error e => .error e
  | .ok seed =>
  let r := dispatchResolve game_type seed session
  match settle_outcome pool lamports rent refLamports refCanReceive session
      r.1 r.2 seed with
  | .error e => .error e
  | .ok s =>
  .ok ⟨s.pool, s.lamports, { session with game_state := 2 },
    s.playerReceives, s.refReceives⟩

/-- The delegated reveal endpoints (`reveal_*_delegated`, e.g.
lib.rs:227-242): identical to the direct ones after the session-token expiry
check `clock.unix_timestamp < session_token.expires_at`. -/
def reveal_game_delegated (expires_at now : Int) (game_type : Nat)
    (hashFn : List Nat → List Nat) (entries : List (Nat × List Nat))
    (blake : List Nat → List Nat) (nonce : List Nat) (slot : Nat)
    (pool : GlobalPool) (lamports rent refLamports : Nat)
    (refCanReceive : Bool) (session : GameSession) :
    Except BlitzError RevealResult :=
  if ¬(now < expires_at) then .error .SessionExpired
  else reveal_game game_type hashFn entries blake nonce slot pool lamports rent
    refLamports refCanReceive session

/-- `pub fn claim_forfeit` (lib.rs:249-268).  `sessionLamports` is the balance
of the session account; the Anchor constraint `close = pool` (lib.rs:1158)
credits it to the pool after the instruction body, i.e. after
`sync_pool_balance` already ran. -/
def claim_forfeit (pool : GlobalPool) (lamports rent : Nat)
    (session : GameSession) (slot sessionLamports : Nat) :
    Except BlitzError (GlobalPool × Nat × GameSession) :=
  if ¬(session.game_state < 2 ∧ slot > satAdd session.forfeit_slot 200) then
    .error .ForfeitNotAvailable
  else
  match sync_pool_balance pool lamports rent with
  | .error e => .error e
  | .ok pool2 =>
  match chkAdd lamports sessionLamports with
  | .error e => .error e
  | .ok lamports2 => .ok (pool2, lamports2, { session with game_state := 2 })

/-- Result of the refund instructions. -/
structure RefundResult where
  pool : GlobalPool
  lamports : Nat
  session : GameSession
  playerReceives : Nat
  deriving DecidableEq

/-- `pub fn emergency_refund` (lib.rs:271-297).  `callerKey` is the signing
player account's key. -/
def emergency_refund (pool : GlobalPool) (lamports rent : Nat)
    (session : GameSession) (slot callerKey : Nat) :
    Except BlitzError RefundResult :=
  if ¬(session.game_state = 0) then .error .SessionNotPending
  else if ¬(slot > session.forfeit_slot) then .error .ForfeitNotAvailable
  else if ¬(session.player = callerKey) then .error .NotSessionPlayer
  else
  let refund := satMul session.bet_lamports 90 / 100
  let penalty := session.bet_lamports - refund
  if ¬(pool.total_balance ≥ refund) then .error .InsufficientLiquidity
  else
  match chkSub lamports refund with
  | .error e => .error e
  | .ok lamports2 =>
  let pool2 := { pool with
    house_fees_earned := satAdd pool.house_fees_earned penalty }
  match sync_pool_balance pool2 lamports2 rent with
  | .error e => .error e
  | .ok pool3 => .ok ⟨pool3, lamports2, { session with game_state := 2 }, refund⟩

/-- `pub fn emergency_player_refund` (lib.rs:300-327).  `playerKey` is the key
of the `player` account (constrained to `session.player`); `callerKey` is the
unconstrained permissionless signer, which the body never uses. -/
def emergency_player_refund (pool : GlobalPool) (lamports rent : Nat)
    (session : GameSession) (playerKey callerKey : Nat) :
    Except BlitzError RefundResult :=
  if ¬(session.game_state = 0) then .error .SessionNotPending
  else if ¬(session.player = playerKey) then .error .NotSessionPlayer
  else
  let config := (session.target_x, session.target_y, session.target_radius)
  let worst := get_worst_payout session.bet_lamports session.game_type config
  if ¬(pool.total_balance < worst) then .error .InsufficientLiquidity
  else
  let refund := satMul session.bet_lamports 96 / 100
  let penalty := session.bet_lamports - refund
  match chkSub lamports refund with
  | .error e => .error e
  | .ok lamports2 =>
  let pool2 := { pool with
    house_fees_earned := satAdd pool.house_fees_earned penalty }
  match sync_pool_balance pool2 lamports2 rent with
  | .error e => .error e
  | .ok pool3 => .ok ⟨pool3, lamports2, { session with game_state := 2 }, refund⟩

/-- `pub fn request_withdrawal` (lib.rs:486-500); `now` is
`clock.unix_timestamp`. -/
def request_withdrawal (pool : GlobalPool) (now : Int) (amount : Nat) :
    Except BlitzError GlobalPool :=
  if pool.withdrawal_request.isSome then .error .PendingWithdrawal
  else if ¬(amount ≤ pool.total_balance / 5) then .error .WithdrawalTooLarge
  else .ok { pool with
    withdrawal_request := some ⟨amount, now, now + 172800⟩ }

/-- `pub fn execute_withdrawal` (lib.rs:502-517). -/
def execute_withdrawal (pool : GlobalPool) (lamports rent : Nat) (now : Int) :
    Except BlitzError (GlobalPool × Nat) :=
  match pool.withdrawal_request with
  | none => .error .NoWithdrawalRequest
  | some req =>
    if ¬(now ≥ req.unlocks_at) then .error .TimelockActive
    else if ¬(pool.total_balance ≥ req.amount) then .error .InsufficientLiquidity
    else
    match chkSub lamports req.amount with
    | .error e => .error e
    | .ok lamports2 =>
    let pool2 := { pool with withdrawal_request := none }
    match sync_pool_balance pool2 lamports2 rent with
    | .error e => .error e
    | .ok pool3 => .ok (pool3, lamports2)

/-- `pub fn claim_house_fees` (lib.rs:525-546). -/
def claim_house_fees (pool : GlobalPool) (lamports rent amount : Nat) :
    Except BlitzError (GlobalPool × Nat) :=
  if ¬(amount > 0) then .error .BetTooSmall
  else if ¬(amount ≤ pool.house_fees_earned) then .error .InsufficientLiquidity
  else if ¬(lamports - rent ≥ amount) then .error .InsufficientLiquidity
  else
  match chkSub lamports amount with
  | .error e => .error e
  | .ok lamports2 =>
  let pool2 := { pool with
    house_fees_earned := pool.house_fees_earned - amount }
  match sync_pool_balance pool2 lamports2 rent with
  | .error e => .error e
  | .ok pool3 => .ok (pool3, lamports2)

/-- `pub fn reinvest_house_fees` (lib.rs:549-562). -/
def reinvest_house_fees (pool : GlobalPool) (lamports rent amount : Nat) :
    Except BlitzError GlobalPool :=
  if ¬(amount > 0) then .error .BetTooSmall
  else if ¬(amount ≤ pool.house_fees_earned) then .error .InsufficientLiquidity
  else
  let pool2 := { pool with
    house_fees_earned := pool.house_fees_earned - amount }
  sync_pool_balance pool2 lamports rent

/-- `pub fn set_paused` (lib.rs:480-483). -/
def set_paused (pool : GlobalPool) (paused : Bool) : GlobalPool :=
  { pool with paused := paused }

/-- The pool state written by `pub fn initialize` (lib.rs:59-70). -/
def initPool : GlobalPool :=
  { total_balance := 0
    jackpot_balance := 0
    total_wagered := 0
    house_fees_earned := 0
    paused := false
    withdrawal_request := none
    total_bets := 0
    total_wins := 0
    total_jackpot_won := 0
    biggest_win := 0 }

/-! ### Claims -/

/-- The session `place_bet` stores for a bet of `bet` lamports on game
`game` with config `config`; key/slot/commitment fields are irrelevant to the
resolvers and zeroed. -/
def mkBetSession (bet game : Nat) (config : Nat × Nat × Nat) : GameSession :=
  { player := 0
    referrer := 0
    bet_lamports := bet
    commitment := []
    commit_slot := 0
    resolve_slot := 0
    forfeit_slot := 0
    game_type := game
    game_state := 0
    target_x := config.1
    target_y := config.2.1
    target_radius := config.2.2 }

/-- C10: `place_bet` rejects — returning an error before any state change —
every bet smaller than 10,000,000 lamports, every bet while the stored liquid
balance is below the `MIN_POOL` (= 100,000,000 lamports) circuit breaker, and
every bet while the pool is paused. -/
theorem c10_place_bet_preconditions (pool : GlobalPool)
    (lamports rent slot playerKey referrerKey referrerOwner game_type : Nat)
    (commitment : List Nat) (bet_lamports : Nat)
    (game_config : Nat × Nat × Nat) :
    (pool.paused = true →
      (place_bet pool lamports rent slot playerKey referrerKey referrerOwner
        game_type commitment bet_lamports game_config).isOk = false) ∧
    (pool.total_balance < MIN_POOL →
      (place_bet pool lamports rent slot playerKey referrerKey referrerOwner
        game_type commitment bet_lamports game_config).isOk = false) ∧
    (bet_lamports < 10000000 →
      (place_bet pool lamports rent slot playerKey referrerKey referrerOwner
        game_type commitment bet_lamports game_config).isOk = false) := by
  refine ⟨?_, ?_, ?_⟩ <;> intro h <;>
    simp only [place_bet] <;>
    split <;> try rfl
  · split
    · rfl
    · omega
  · split
    · rfl
    · split
      · rfl
      · omega

/-- Witness for C10 at a concrete paused, underfunded pool and dust bet. -/
theorem c10_witness :
    ({ initPool with paused := true } : GlobalPool).paused = true ∧
    ({ initPool with paused := true } : GlobalPool).total_balance < MIN_POOL ∧
    (5 : Nat) < 10000000 ∧
    (place_bet { initPool with paused := true } 0 0 0 1 1 0 0 [] 5
      (0, 0, 0)).isOk = false :=
  ⟨rfl, by decide, by decide,
    (c10_place_bet_preconditions { initPool with paused := true } 0 0 0 1 1 0 0
      [] 5 (0, 0, 0)).1 rfl⟩


/-- Sector configs accepted by `place_bet` have coordinates below 16 and
radius at most 3. -/
theorem configCheck_sector (a b c : Nat)
    (hc : configCheck 1 (a, b, c) = .ok ()) : a < 16 ∧ b < 16 ∧ c ≤ 3 := by
  unfold configCheck at hc
  repeat' split at hc
  all_goals simp_all

/-- Dice configs accepted by `place_bet` have a target in the allowed range
for their direction. -/
theorem configCheck_dice (a b c : Nat)
    (hc : configCheck 2 (a, b, c) = .ok ()) :
    b ≤ 1 ∧ (b = 0 → 2 ≤ a ∧ a ≤ 95) ∧ (b ≠ 0 → 4 ≤ a ∧ a ≤ 97) := by
  unfold configCheck at hc
  repeat' split at hc
  all_goals simp_all

/-- Tower configs accepted by `place_bet` have 1 to 6 floors. -/
theorem configCheck_tower (a b c : Nat)
    (hc : configCheck 3 (a, b, c) = .ok ()) : 1 ≤ a ∧ a ≤ 6 := by
  unfold configCheck at hc
  repeat' split at hc
  all_goals simp_all

/-- C2: for every bet, every game type `0..=3`, every config accepted by
`place_bet`'s validation, and every seed, the matching resolver pays exactly
`get_worst_payout bet game config` on a win and `0` on a loss — so the seed
decides only win/lose, never the winning payout's magnitude. -/
theorem c2_worst_payout_matches_resolvers (bet game : Nat)
    (config : Nat × Nat × Nat) (seed : List Nat)
    (hg : game ≤ 3) (hc : configCheck game config = .ok ()) :
    ((dispatchResolve game seed (mkBetSession bet game config)).1 = true →
      (dispatchResolve game seed (mkBetSession bet game config)).2 =
        get_worst_payout bet game config) ∧
    ((dispatchResolve game seed (mkBetSession bet game config)).1 = false →
      (dispatchResolve game seed (mkBetSession bet game config)).2 = 0) := by
  obtain ⟨a, b, c⟩ := config
  interval_cases game
  · constructor <;> intro hw <;>
      simp only [dispatchResolve, resolve_flip, mkBetSession,
        get_worst_payout] at hw ⊢ <;>
      simp only [hw, if_true, if_false, Bool.false_eq_true, ite_false]
  · have hc3 : c ≤ 3 := (configCheck_sector a b c hc).2.2
    constructor <;> intro hw <;>
      simp only [dispatchResolve, resolve_sector, mkBetSession,
        get_worst_payout] at hw ⊢ <;>
      simp only [hw, if_true, Bool.false_eq_true, ite_false, if_pos hc3]
  · have hb := configCheck_dice a b c hc
    have ha : 2 ≤ a ∧ a ≤ 97 := by
      rcases hb with ⟨h1, h2, h3⟩
      rcases Nat.eq_zero_or_pos b with h | h
      · exact ⟨(h2 h).1, by have := (h2 h).2; omega⟩
      · exact ⟨by have := (h3 (by omega)).1; omega, (h3 (by omega)).2⟩
    constructor <;> intro hw <;>
      simp only [dispatchResolve, resolve_dice, mkBetSession,
        get_worst_payout] at hw ⊢ <;>
      simp only [hw, if_true, Bool.false_eq_true, ite_false, if_pos ha]
  · have hf : 1 ≤ a ∧ a ≤ 6 := configCheck_tower a b c hc
    constructor <;> intro hw <;>
      simp only [dispatchResolve, resolve_tower, mkBetSession,
        get_worst_payout] at hw ⊢ <;>
      simp only [hw, if_true, Bool.false_eq_true, ite_false, if_pos hf]

/-- Witness for C2 at a concrete winning Tower bet: 0.05 SOL, 3 floors, lanes
`[1, 0, 1]`, trap lanes `[0, 1, 0]` — the resolver wins and pays exactly the
worst-case payout. -/
theorem c2_witness :
    (3 : Nat) ≤ 3 ∧ configCheck 3 (3, 5, 0) = .ok () ∧
    (dispatchResolve 3 [0, 1, 0] (mkBetSession 50000000 3 (3, 5, 0))).1 = true ∧
    (dispatchResolve 3 [0, 1, 0] (mkBetSession 50000000 3 (3, 5, 0))).2 =
      get_worst_payout 50000000 3 (3, 5, 0) :=
  ⟨by decide, rfl, by decide,
    (c2_worst_payout_matches_resolvers 50000000 3 (3, 5, 0) [0, 1, 0]
      (by decide) rfl).1 (by decide)⟩

/-- `satMul` is exact multiplication below `u64::MAX`. -/
theorem satMul_eq {a b : Nat} (h : a * b ≤ U64MAX) : satMul a b = a * b :=
  min_eq_left h

/-- `satAdd` is exact addition below `u64::MAX`. -/
theorem satAdd_eq {a b : Nat} (h : a + b ≤ U64MAX) : satAdd a b = a + b :=
  min_eq_left h

/-- The trap lane of floor `i` as the spec states it: `seed[i] mod 2`. -/
def towerTrap (seed : List Nat) (i : Nat) : Nat := byteAt seed i % 2

/-- The player's chosen lane at floor `i`: bit `i` of the path pattern. -/
def towerLane (path_bits i : Nat) : Nat := (path_bits >>> i) &&& 1

/-- Death floor as the spec states it: `i + 1` for the first floor `i` whose
chosen lane equals its trap lane, `0` if no floor matches. -/
def towerFirstDeath (seed : List Nat) (path_bits floors : Nat) : Nat :=
  match (List.range floors).find?
      (fun i => towerLane path_bits i == towerTrap seed i) with
  | some i => i + 1
  | none => 0

/-- The death-floor accumulator of `resolve_tower`'s loop computes the first
matching floor. -/
theorem towerFold_death (seed : List Nat) (path : Nat) (n : Nat) :
    ((List.range n).foldl
      (fun (st : Nat × Nat) i =>
        let trap_lane := byteAt seed i % 2
        let traps := st.2 ||| (trap_lane <<< i)
        let player_choice := (path >>> i) &&& 1
        let death := if st.1 == 0 && player_choice == trap_lane then i + 1 else st.1
        (death, traps)) (0, 0)).1 = towerFirstDeath seed path n := by
  induction n with
  | zero => rfl
  | succ n ih =>
    unfold towerFirstDeath at ih ⊢
    rw [List.range_succ, List.foldl_append, List.find?_append]
    cases h : (List.range n).find?
        (fun i => towerLane path i == towerTrap seed i) with
    | some j =>
      rw [h] at ih
      simp only [List.foldl_cons, List.foldl_nil, Option.some_orElse]
      rw [ih]
      have hj : j + 1 ≠ 0 := Nat.succ_ne_zero j
      simp [towerLane, towerTrap, hj]
    | none =>
      rw [h] at ih
      simp only [List.foldl_cons, List.foldl_nil, Option.none_orElse]
      rw [ih]
      simp only [towerLane, towerTrap, List.find?_cons, List.find?_nil]
      cases hp : ((path >>> n) &&& 1 == byteAt seed n % 2) <;> simp [hp]

/-- C8: for every Tower session (floors in `[1, 6]`, any lane bit pattern,
any seed), the death floor is `i + 1` for the first floor `i` whose chosen
lane equals its trap lane `seed[i] mod 2`, the bet is won iff no floor
matches, a full win pays `bet * 95 * 2 ^ floors / 100` (0.95 × 2^floors ×
bet) and a loss pays 0; concretely, floors = 3 with lanes `[1,0,1]` against
trap lanes `[1,0,1]` dies at floor 1 with no payout. -/
theorem c8_tower_resolution (bet floors path : Nat) (seed : List Nat)
    (h1 : 1 ≤ floors) (h6 : floors ≤ 6)
    (hsat : bet * 95 * 2 ^ floors ≤ U64MAX) :
    (resolve_tower seed (mkBetSession bet 3 (floors, path, 0))).2.2.1 =
      towerFirstDeath seed path floors ∧
    ((resolve_tower seed (mkBetSession bet 3 (floors, path, 0))).1 = true ↔
      towerFirstDeath seed path floors = 0) ∧
    ((resolve_tower seed (mkBetSession bet 3 (floors, path, 0))).1 = true →
      (resolve_tower seed (mkBetSession bet 3 (floors, path, 0))).2.1 =
        bet * 95 * 2 ^ floors / 100) ∧
    ((resolve_tower seed (mkBetSession bet 3 (floors, path, 0))).1 = false →
      (resolve_tower seed (mkBetSession bet 3 (floors, path, 0))).2.1 = 0) ∧
    resolve_tower [1, 0, 1] (mkBetSession 10000000 3 (3, 5, 0)) =
      (false, 0, 1, 5, 5) := by
  have h95 : bet * 95 ≤ U64MAX := by
    have h2 : 1 ≤ 2 ^ floors := Nat.one_le_two_pow
    calc bet * 95 = bet * 95 * 1 := by ring
    _ ≤ bet * 95 * 2 ^ floors := by exact Nat.mul_le_mul_left _ h2
    _ ≤ U64MAX := hsat
  have hpay : satMul (satMul bet 95) (1 <<< floors) / 100 =
      bet * 95 * 2 ^ floors / 100 := by
    rw [satMul_eq h95, Nat.shiftLeft_eq, one_mul, satMul_eq hsat]
  have hdeath : (resolve_tower seed (mkBetSession bet 3 (floors, path, 0))).2.2.1 =
      towerFirstDeath seed path floors := by
    simp only [resolve_tower, mkBetSession]
    exact towerFold_death seed path floors
  refine ⟨hdeath, ?_, ?_, ?_, by decide⟩
  · rw [← hdeath]
    simp only [resolve_tower, mkBetSession]
    exact ⟨fun h => by simpa using h, fun h => by simpa using h⟩
  · intro hw
    simp only [resolve_tower, mkBetSession] at hw ⊢
    simp only [hw, if_true, hpay]
  · intro hw
    simp only [resolve_tower, mkBetSession] at hw ⊢
    simp only [hw, Bool.false_eq_true, ite_false]

/-- Witness for C8 at the spec's concrete example. -/
theorem c8_witness :
    (1 : Nat) ≤ 3 ∧ (3 : Nat) ≤ 6 ∧ 10000000 * 95 * 2 ^ 3 ≤ U64MAX ∧
    (resolve_tower [1, 0, 1] (mkBetSession 10000000 3 (3, 5, 0))).2.2.1 =
      towerFirstDeath [1, 0, 1] 5 3 :=
  ⟨by decide, by decide, by decide,
    (c8_tower_resolution 10000000 3 5 [1, 0, 1] (by decide) (by decide)
      (by decide)).1⟩

/-- C4: a reveal (direct or delegated, which shares this validator) succeeds
only if the session is Pending, the game type matches, `resolve_slot ≤ slot ≤
forfeit_slot`, the slot is within the 512-slot oracle window, and the hash of
the supplied nonce equals the stored commitment; if any condition fails the
validator returns an error, and the reveal then returns that error without
settling. -/
theorem c4_reveal_validation (hashFn : List Nat → List Nat)
    (entries : List (Nat × List Nat)) (blake : List Nat → List Nat)
    (session : GameSession) (slot : Nat) (nonce : List Nat)
    (expected_game_type : Nat) :
    ((validate_and_extract_seed hashFn entries blake session slot nonce
        expected_game_type).isOk = true →
      session.game_state = 0 ∧ session.game_type = expected_game_type ∧
      session.resolve_slot ≤ slot ∧ slot ≤ session.forfeit_slot ∧
      slot - session.resolve_slot < 512 ∧ hashFn nonce = session.commitment) ∧
    (¬(session.game_state = 0 ∧ session.game_type = expected_game_type ∧
        session.resolve_slot ≤ slot ∧ slot ≤ session.forfeit_slot ∧
        slot - session.resolve_slot < 512 ∧
        hashFn nonce = session.commitment) →
      (validate_and_extract_seed hashFn entries blake session slot nonce
        expected_game_type).isOk = false) ∧
    (∀ (pool : GlobalPool) (lamports rent refLamports : Nat)
        (refCanReceive : Bool) (e : BlitzError),
      validate_and_extract_seed hashFn entries blake session slot nonce
        expected_game_type = .error e →
      reveal_game expected_game_type hashFn entries blake nonce slot pool
        lamports rent refLamports refCanReceive session = .error e) := by
  refine ⟨?_, ?_, ?_⟩
  · intro hok
    unfold validate_and_extract_seed at hok
    split_ifs at hok with h1 h2 h3 h4 h5 h6 <;> simp_all [Except.isOk, Except.toBool]
  · intro hn
    unfold validate_and_extract_seed
    split_ifs with h1 h2 h3 h4 h5 h6 <;> simp_all [Except.isOk, Except.toBool]
  · intro pool lamports rent refLamports refCanReceive e he
    simp only [reveal_game, he, bind, Except.bind]

/-- The session used in the C4 witness: Pending, Flip, reveal window
`[10, 1010]`, commitment `[1]`. -/
def c4Session : GameSession :=
  { player := 1
    referrer := 0
    bet_lamports := 10000000
    commitment := [1]
    commit_slot := 5
    resolve_slot := 10
    forfeit_slot := 1010
    game_type := 0
    game_state := 0
    target_x := 0
    target_y := 0
    target_radius := 0 }

/-- Witness for C4: a concrete successful validation, whose preconditions the
theorem recovers. -/
theorem c4_witness :
    (validate_and_extract_seed (fun _ => [1])
      [(10, [7]), (11, [8]), (12, [9])] (fun _ => [2]) c4Session 10 [] 0).isOk
        = true ∧
    c4Session.game_state = 0 ∧ c4Session.game_type = 0 ∧
    c4Session.resolve_slot ≤ 10 ∧ (10 : Nat) ≤ c4Session.forfeit_slot ∧
    10 - c4Session.resolve_slot < 512 ∧
    (fun (_ : List Nat) => [1]) [] = c4Session.commitment :=
  ⟨rfl, (c4_reveal_validation (fun _ => [1]) [(10, [7]), (11, [8]), (12, [9])]
    (fun _ => [2]) c4Session 10 [] 0).1 rfl⟩

theorem chkAdd_ok {a b v : Nat} (h : chkAdd a b = .ok v) :
    v = a + b ∧ a + b ≤ U64MAX := by
  unfold chkAdd at h; split at h <;> simp_all

theorem chkSub_ok {a b v : Nat} (h : chkSub a b = .ok v) :
    v = a - b ∧ b ≤ a := by
  unfold chkSub at h; split at h <;> simp_all

theorem sync_ok {p : GlobalPool} {l r : Nat} {q : GlobalPool}
    (h : sync_pool_balance p l r = .ok q) :
    satAdd p.house_fees_earned p.jackpot_balance ≤ l - r ∧
    q = { p with total_balance :=
      l - r - satAdd p.house_fees_earned p.jackpot_balance } := by
  simp only [sync_pool_balance] at h
  split at h <;> simp_all

theorem settle_ok_parts {pool : GlobalPool} {lamports rent refLamports : Nat}
    {refCanReceive : Bool} {session : GameSession} {won : Bool}
    {gross_payout : Nat} {seed : List Nat} {res : SettleResult}
    (hok : settle_outcome pool lamports rent refLamports refCanReceive session
      won gross_payout seed = .ok res) :
    (if won then gross_payout else 0) +
        (settleFees session.bet_lamports session.referrer session.player
          refLamports session.game_type).2.1 +
        (settleFees session.bet_lamports session.referrer session.player
          refLamports session.game_type).2.2 +
        (settleFees session.bet_lamports session.referrer session.player
          refLamports session.game_type).1 ≤
      lamports - rent - pool.house_fees_earned - pool.jackpot_balance ∧
    res.lamports = lamports -
      ((if won then gross_payout else 0) +
        (settleFees session.bet_lamports session.referrer session.player
          refLamports session.game_type).2.1 +
        jackpotPrize session.bet_lamports pool.jackpot_balance seed) ∧
    ((if won then gross_payout else 0) +
        (settleFees session.bet_lamports session.referrer session.player
          refLamports session.game_type).2.1 +
        jackpotPrize session.bet_lamports pool.jackpot_balance seed) ≤
      lamports ∧
    res.pool.jackpot_balance =
      satAdd (pool.jackpot_balance -
          jackpotPrize session.bet_lamports pool.jackpot_balance seed)
        (settleFees session.bet_lamports session.referrer session.player
          refLamports session.game_type).2.2 ∧
    res.pool.house_fees_earned =
      satAdd pool.house_fees_earned
        (settleFees session.bet_lamports session.referrer session.player
          refLamports session.game_type).1 ∧
    res.refReceives = (if refCanReceive then
      (settleFees session.bet_lamports session.referrer session.player
        refLamports session.game_type).2.1 else 0) ∧
    res.playerReceives = (if won then gross_payout else 0) +
      jackpotPrize session.bet_lamports pool.jackpot_balance seed +
      (if refCanReceive then 0 else
        (settleFees session.bet_lamports session.referrer session.player
          refLamports session.game_type).2.1) ∧
    satAdd res.pool.house_fees_earned res.pool.jackpot_balance ≤
      res.lamports - rent ∧
    res.pool.total_balance = res.lamports - rent -
      satAdd res.pool.house_fees_earned res.pool.jackpot_balance := by
  simp only [settle_outcome] at hok
  split at hok
  case _ e => exact Except.noConfusion hok
  case _ gameOut hgo =>
  split at hok
  case _ e => exact Except.noConfusion hok
  case _ totalOut hto =>
  split at hok
  case _ e => exact Except.noConfusion hok
  case _ need0 hn0 =>
  split at hok
  case _ e => exact Except.noConfusion hok
  case _ need hnd =>
  split at hok
  case _ => exact Except.noConfusion hok
  case _ hav =>
  split at hok
  case _ e => exact Except.noConfusion hok
  case _ lamports2 hsub =>
  split at hok
  case _ e => exact Except.noConfusion hok
  case _ pool5 hsync =>
  obtain ⟨hsle, rfl⟩ := sync_ok hsync
  cases hok
  have hgov : gameOut = (if won then gross_payout else 0) +
      (settleFees session.bet_lamports session.referrer session.player
        refLamports session.game_type).2.1 := by
    cases won
    · simp only [Bool.false_eq_true, if_false] at hgo ⊢
      cases hgo; omega
    · simp only [if_true] at hgo ⊢
      exact (chkAdd_ok hgo).1
  obtain ⟨htov, htob⟩ := chkAdd_ok hto
  obtain ⟨hn0v, hn0b⟩ := chkAdd_ok hn0
  obtain ⟨hndv, hndb⟩ := chkAdd_ok hnd
  obtain ⟨hsubv, hsuble⟩ := chkSub_ok hsub
  subst hgov hn0v hndv htov hsubv
  dsimp only
  refine ⟨?gA, ?gB, ?gC, ?_, ?_, rfl, ?_, ?_, ?_⟩
  case gA => omega
  case gB => omega
  case gC => omega
  · simp only [apply_ite (GlobalPool.jackpot_balance), ite_self]
  · simp only [apply_ite (GlobalPool.house_fees_earned), ite_self]
  · cases won <;> simp
  · simpa only [apply_ite (GlobalPool.house_fees_earned),
      apply_ite (GlobalPool.jackpot_balance), ite_self] using hsle
  · simp only [apply_ite (GlobalPool.house_fees_earned),
      apply_ite (GlobalPool.jackpot_balance), ite_self]

/-- The spec's "liquid pool": physical lamports minus the rent reserve minus
the house-fee reserve minus the jackpot reserve. -/
def liquidBalance (pool : GlobalPool) (lamports rent : Nat) : Nat :=
  lamports - rent - pool.house_fees_earned - pool.jackpot_balance

/-- If the liquid pool does not cover win payout + referrer cut + jackpot cut
+ house cut, `settle_outcome` fails. -/
theorem settle_insufficient_err {pool : GlobalPool}
    {lamports rent refLamports : Nat} {refCanReceive : Bool}
    {session : GameSession} {won : Bool} {gross_payout : Nat} {seed : List Nat}
    (hlt : liquidBalance pool lamports rent <
      (if won then gross_payout else 0) +
        (settleFees session.bet_lamports session.referrer session.player
          refLamports session.game_type).2.1 +
        (settleFees session.bet_lamports session.referrer session.player
          refLamports session.game_type).2.2 +
        (settleFees session.bet_lamports session.referrer session.player
          refLamports session.game_type).1) :
    (settle_outcome pool lamports rent refLamports refCanReceive session won
      gross_payout seed).isOk = false := by
  cases h : settle_outcome pool lamports rent refLamports refCanReceive
      session won gross_payout seed with
  | error e => rfl
  | ok res =>
    exact absurd (settle_ok_parts h).1 (by
      simp only [liquidBalance] at hlt; omega)

/-- C5 (amended): a settlement succeeds only if the liquid pool covers
(win payout if won) + referrer cut + jackpot cut + **house cut**, and fails
whenever it does not; the jackpot prize is *not* part of this check — it is
paid out of the jackpot reserve, which sits outside the liquid pool.  In this
pure embedding a failing call returns only an error, so no funds move and no
state changes. -/
theorem c5_solvency_check_amended (pool : GlobalPool)
    (lamports rent refLamports : Nat) (refCanReceive : Bool)
    (session : GameSession) (won : Bool) (gross_payout : Nat)
    (seed : List Nat) :
    (∀ res, settle_outcome pool lamports rent refLamports refCanReceive
        session won gross_payout seed = .ok res →
      (if won then gross_payout else 0) +
        (settleFees session.bet_lamports session.referrer session.player
          refLamports session.game_type).2.1 +
        (settleFees session.bet_lamports session.referrer session.player
          refLamports session.game_type).2.2 +
        (settleFees session.bet_lamports session.referrer session.player
          refLamports session.game_type).1 ≤
        liquidBalance pool lamports rent) ∧
    (liquidBalance pool lamports rent <
        (if won then gross_payout else 0) +
        (settleFees session.bet_lamports session.referrer session.player
          refLamports session.game_type).2.1 +
        (settleFees session.bet_lamports session.referrer session.player
          refLamports session.game_type).2.2 +
        (settleFees session.bet_lamports session.referrer session.player
          refLamports session.game_type).1 →
      (settle_outcome pool lamports rent refLamports refCanReceive session won
        gross_payout seed).isOk = false) :=
  ⟨fun _ h => by
    have := (settle_ok_parts h).1
    simp only [liquidBalance]
    omega,
   fun hlt => settle_insufficient_err hlt⟩

/-- Pool state for the C5 counterexample: 0.1 SOL jackpot reserve backed by
physical lamports, 0.001 SOL liquid. -/
def c5Pool : GlobalPool :=
  { initPool with total_balance := 1000000, jackpot_balance := 100000000 }

/-- Session for the C5 counterexample: a 0.02 SOL Flip bet with no referrer. -/
def c5Session : GameSession := mkBetSession 20000000 0 (0, 0, 0)

/-- All-zero seed: jackpot draw `0`, below every positive threshold. -/
def zeroSeed : List Nat := List.replicate 32 0

/-- Counterexample to C5 as stated: at this concrete reachable-shaped state
the liquid pool (0.001 SOL) is far below win payout + referrer cut + jackpot
cut + **jackpot prize** (0.0902 SOL, prize 0.09 SOL), yet the settlement call
succeeds — the prize is paid from the jackpot reserve, the solvency check
(lib.rs:769) covers `game_out + jackpot_cut + house_cut` and no prize. -/
theorem c5_counterexample :
    liquidBalance c5Pool 101000000 0 <
      (if (false : Bool) then 0 else 0) +
        (settleFees c5Session.bet_lamports c5Session.referrer c5Session.player
          0 c5Session.game_type).2.1 +
        (settleFees c5Session.bet_lamports c5Session.referrer c5Session.player
          0 c5Session.game_type).2.2 +
        jackpotPrize c5Session.bet_lamports c5Pool.jackpot_balance zeroSeed ∧
    (settle_outcome c5Pool 101000000 0 0 true c5Session false 0 zeroSeed).isOk =
      true := by
  constructor
  · decide
  · decide

/-- Witness for C5's amended theorem: at the same concrete state the
settlement succeeds, so the liquid pool covers payout + referrer cut +
jackpot cut + house cut. -/
theorem c5_witness :
    (if (false : Bool) then 0 else 0) +
        (settleFees c5Session.bet_lamports c5Session.referrer c5Session.player
          0 c5Session.game_type).2.1 +
        (settleFees c5Session.bet_lamports c5Session.referrer c5Session.player
          0 c5Session.game_type).2.2 +
        (settleFees c5Session.bet_lamports c5Session.referrer c5Session.player
          0 c5Session.game_type).1 ≤
      liquidBalance c5Pool 101000000 0 := by
  cases hs : settle_outcome c5Pool 101000000 0 0 true c5Session false 0 zeroSeed
    with
  | error e =>
    have h2 : (settle_outcome c5Pool 101000000 0 0 true c5Session false 0
      zeroSeed).isOk = true := by decide
    rw [hs] at h2
    exact Bool.noConfusion h2
  | ok res =>
    exact (c5_solvency_check_amended c5Pool 101000000 0 0 true c5Session false
      0 zeroSeed).1 res hs

/-- The fee-split arithmetic of `settle_outcome` STEP 1 (lib.rs:719-742), for
bets small enough that `saturating_mul` is exact: the jackpot cut is 1% of
the bet; an eligible referrer (distinct from player and system address,
balance ≥ 0.05 SOL, commission ≥ 0.001 SOL) receives 2% of the bet with the
house keeping 2%; otherwise the referrer share folds into the house cut. -/
theorem settleFees_spec (bet ref player refLam g : Nat)
    (hbet : bet * 200 ≤ U64MAX) :
    (settleFees bet ref player refLam g).2.2 = bet / 100 ∧
    ((ref ≠ systemProgramID ∧ ref ≠ player ∧ 50000000 ≤ refLam ∧
        1000000 ≤ bet * 2 / 100) →
      (settleFees bet ref player refLam g).1 = bet * 2 / 100 ∧
      (settleFees bet ref player refLam g).2.1 = bet * 2 / 100) ∧
    (¬(ref ≠ systemProgramID ∧ ref ≠ player ∧ 50000000 ≤ refLam ∧
        1000000 ≤ bet * 2 / 100) →
      (settleFees bet ref player refLam g).1 = bet * 2 / 100 + bet * 2 / 100 ∧
      (settleFees bet ref player refLam g).2.1 = 0) := by
  have h200 : satMul bet 200 = bet * 200 := satMul_eq hbet
  have h100 : satMul bet 100 = bet * 100 := satMul_eq (by omega)
  unfold settleFees get_fee_bps is_valid_referrer
  simp only [show (200 : Nat) + 0 = 200 from rfl, h200, h100]
  have hpot : bet * 200 / 10000 = bet * 2 / 100 := by omega
  have hjct : bet * 100 / 10000 = bet / 100 := by omega
  have hsa : satAdd (bet * 200 / 10000) (bet * 200 / 10000) =
      bet * 200 / 10000 + bet * 200 / 10000 := satAdd_eq (by omega)
  split_ifs with hv he <;>
    simp_all [bne_iff_ne, systemProgramID, hsa]

/-- C6: in every successful settlement the cuts are computed on the bet, not
the payout — jackpot cut 1% of the bet, base house cut 2%, referrer cut 2%
paid to the referrer only when it is distinct from player and system address,
holds at least 0.05 SOL, and the commission is at least 0.001 SOL; in every
other case the 2% referrer share is added to the house cut.  The house
reserve grows by exactly the house cut, and the referrer transfer is exactly
the referrer cut.  (Bounds: `saturating` arithmetic is exact for any real bet
and fee reserve.) -/
theorem c6_fee_split (pool : GlobalPool) (lamports rent refLamports : Nat)
    (refCanReceive : Bool) (session : GameSession) (won : Bool)
    (gross_payout : Nat) (seed : List Nat) (res : SettleResult)
    (hbet : session.bet_lamports * 200 ≤ U64MAX)
    (hfees : pool.house_fees_earned + session.bet_lamports ≤ U64MAX)
    (hok : settle_outcome pool lamports rent refLamports refCanReceive session
      won gross_payout seed = .ok res) :
    (settleFees session.bet_lamports session.referrer session.player
      refLamports session.game_type).2.2 = session.bet_lamports / 100 ∧
    ((session.referrer ≠ systemProgramID ∧ session.referrer ≠ session.player ∧
        50000000 ≤ refLamports ∧ 1000000 ≤ session.bet_lamports * 2 / 100) →
      (settleFees session.bet_lamports session.referrer session.player
        refLamports session.game_type).1 = session.bet_lamports * 2 / 100 ∧
      (settleFees session.bet_lamports session.referrer session.player
        refLamports session.game_type).2.1 =
        session.bet_lamports * 2 / 100) ∧
    (¬(session.referrer ≠ systemProgramID ∧
        session.referrer ≠ session.player ∧ 50000000 ≤ refLamports ∧
        1000000 ≤ session.bet_lamports * 2 / 100) →
      (settleFees session.bet_lamports session.referrer session.player
        refLamports session.game_type).1 =
        session.bet_lamports * 2 / 100 + session.bet_lamports * 2 / 100 ∧
      (settleFees session.bet_lamports session.referrer session.player
        refLamports session.game_type).2.1 = 0) ∧
    res.pool.house_fees_earned = pool.house_fees_earned +
      (settleFees session.bet_lamports session.referrer session.player
        refLamports session.game_type).1 ∧
    (refCanReceive = true → res.refReceives =
      (settleFees session.bet_lamports session.referrer session.player
        refLamports session.game_type).2.1) := by
  obtain ⟨h1, h2, h3⟩ := settleFees_spec session.bet_lamports session.referrer
    session.player refLamports session.game_type hbet
  have parts := settle_ok_parts hok
  have hcut_le : (settleFees session.bet_lamports session.referrer
      session.player refLamports session.game_type).1 ≤
      session.bet_lamports := by
    by_cases he : session.referrer ≠ systemProgramID ∧
        session.referrer ≠ session.player ∧ 50000000 ≤ refLamports ∧
        1000000 ≤ session.bet_lamports * 2 / 100
    · have := (h2 he).1; omega
    · have := (h3 he).1; omega
  refine ⟨h1, h2, h3, ?_, ?_⟩
  · rw [parts.2.2.2.2.1]
    exact satAdd_eq (by omega)
  · intro hrc
    rw [parts.2.2.2.2.2.1, hrc, if_pos rfl]

/-- Session for the C6 witness: a 0.05 SOL bet referred by wallet 9. -/
def c6Session : GameSession :=
  { mkBetSession 50000000 0 (0, 0, 0) with player := 7, referrer := 9 }

/-- Witness for C6: a concrete successful settlement with an eligible
referrer; the jackpot cut is 1% of the 0.05 SOL bet. -/
theorem c6_witness :
    (settleFees c6Session.bet_lamports c6Session.referrer c6Session.player
      50000000 c6Session.game_type).2.2 = c6Session.bet_lamports / 100 := by
  cases hs : settle_outcome initPool 1000000000 0 50000000 true c6Session
      false 0 zeroSeed with
  | error e =>
    have h2 : (settle_outcome initPool 1000000000 0 50000000 true c6Session
      false 0 zeroSeed).isOk = true := by decide
    rw [hs] at h2
    exact Bool.noConfusion h2
  | ok res =>
    exact (c6_fee_split initPool 1000000000 0 50000000 true c6Session false 0
      zeroSeed res (by decide) (by decide) hs).1

/-- The jackpot prize never exceeds the jackpot reserve. -/
theorem jackpotPrize_le (bet j : Nat) (seed : List Nat) :
    jackpotPrize bet j seed ≤ j := by
  simp only [jackpotPrize]
  split_ifs with h1 h2
  · have h90 : satMul j 90 ≤ j * 90 := min_le_left _ _
    omega
  · exact Nat.zero_le j
  · exact Nat.zero_le j

/-- The jackpot cut is the same in every branch of the fee split. -/
theorem settleFees_jackpot_cut (bet ref player refLam g : Nat) :
    (settleFees bet ref player refLam g).2.2 = satMul bet 100 / 10000 := by
  simp only [settleFees, get_fee_bps]
  split_ifs <;> rfl

/-- C7: the jackpot can trigger only when the bet is at least
`JACKPOT_MIN_BET` (0.02 SOL) and the reserve at least `JACKPOT_MIN_POOL`
(0.1 SOL) — in particular a reserve below 0.1 SOL never pays, for any seed
and bet; the draw is the little-endian integer of seed bytes 24..28, the
threshold is `bet * 43 / 10000` capped at `u32::MAX / 200` (≈0.5% trigger
probability), a triggering draw pays 90% of the current reserve, and a
successful settlement leaves the reserve at old − prize + jackpot cut. -/
theorem c7_jackpot_trigger (pool : GlobalPool)
    (lamports rent refLamports : Nat) (refCanReceive : Bool)
    (session : GameSession) (won : Bool) (gross_payout : Nat)
    (seed : List Nat) (res : SettleResult)
    (hj : pool.jackpot_balance + session.bet_lamports ≤ U64MAX)
    (hok : settle_outcome pool lamports rent refLamports refCanReceive session
      won gross_payout seed = .ok res) :
    (∀ bet j s, j < JACKPOT_MIN_POOL → jackpotPrize bet j s = 0) ∧
    (∀ bet j s, bet < JACKPOT_MIN_BET → jackpotPrize bet j s = 0) ∧
    (∀ bet j s, j * 90 ≤ U64MAX → JACKPOT_MIN_BET ≤ bet →
      JACKPOT_MIN_POOL ≤ j →
      jackpotPrize bet j s =
        if leBytes s 24 4 <
            min (satMul bet JACKPOT_RATE / JACKPOT_BASE) (U32MAX / 200) then
          j * 90 / 100
        else 0) ∧
    (∀ bet, min (satMul bet JACKPOT_RATE / JACKPOT_BASE) (U32MAX / 200) ≤
      U32MAX / 200) ∧
    res.pool.jackpot_balance = pool.jackpot_balance -
      jackpotPrize session.bet_lamports pool.jackpot_balance seed +
      (settleFees session.bet_lamports session.referrer session.player
        refLamports session.game_type).2.2 := by
  refine ⟨?_, ?_, ?_, ?_, ?_⟩
  · intro bet j s hlt
    unfold jackpotPrize
    rw [if_neg (by simp [JACKPOT_MIN_POOL] at hlt ⊢; omega)]
  · intro bet j s hlt
    unfold jackpotPrize
    rw [if_neg (by simp [JACKPOT_MIN_BET] at hlt ⊢; omega)]
  · intro bet j s h90 hbet hjp
    unfold jackpotPrize
    rw [if_pos ⟨hbet, hjp⟩, satMul_eq h90]
  · intro bet
    exact min_le_right _ _
  · have parts := settle_ok_parts hok
    rw [parts.2.2.2.1]
    have hple := jackpotPrize_le session.bet_lamports pool.jackpot_balance seed
    have hcle : (settleFees session.bet_lamports session.referrer
        session.player refLamports session.game_type).2.2 ≤
        session.bet_lamports := by
      rw [settleFees_jackpot_cut]
      have : satMul session.bet_lamports 100 ≤ session.bet_lamports * 100 :=
        min_le_left _ _
      omega
    exact satAdd_eq (by omega)

/-- Witness for C7: a 0.09 SOL reserve (below the 0.1 SOL minimum) pays no
prize, even on an all-zero (always-below-threshold) draw. -/
theorem c7_witness :
    jackpotPrize 20000000 90000000 zeroSeed = 0 := by
  cases hs : settle_outcome c5Pool 101000000 0 0 true c5Session false 0
      zeroSeed with
  | error e =>
    have h2 : (settle_outcome c5Pool 101000000 0 0 true c5Session false 0
      zeroSeed).isOk = true := by decide
    rw [hs] at h2
    exact Bool.noConfusion h2
  | ok res =>
    exact (c7_jackpot_trigger c5Pool 101000000 0 0 true c5Session false 0
      zeroSeed res (by decide) hs).1 20000000 90000000 zeroSeed (by decide)

/-- C9: `emergency_player_refund` is caller-independent (any signer may
invoke it), succeeds only when the session is Pending and the stored liquid
balance is strictly below the session's worst-case payout (computed by
`get_worst_payout` from the stored bet, game type and config), and on success
sends exactly `⌊bet * 96 / 100⌋` lamports from the pool to the player, adds
the remaining 4% of the bet to the house-fee reserve, and marks the session
terminal. -/
theorem c9_emergency_player_refund (pool : GlobalPool) (lamports rent : Nat)
    (session : GameSession) (playerKey callerKey : Nat) (res : RefundResult)
    (h96 : session.bet_lamports * 96 ≤ U64MAX)
    (hfees : pool.house_fees_earned + session.bet_lamports ≤ U64MAX)
    (hok : emergency_player_refund pool lamports rent session playerKey
      callerKey = .ok res) :
    session.game_state = 0 ∧
    pool.total_balance < get_worst_payout session.bet_lamports
      session.game_type
      (session.target_x, session.target_y, session.target_radius) ∧
    res.playerReceives = session.bet_lamports * 96 / 100 ∧
    res.lamports = lamports - session.bet_lamports * 96 / 100 ∧
    res.pool.house_fees_earned = pool.house_fees_earned +
      (session.bet_lamports - session.bet_lamports * 96 / 100) ∧
    res.session.game_state = 2 ∧
    (∀ c1 c2, emergency_player_refund pool lamports rent session playerKey c1
      = emergency_player_refund pool lamports rent session playerKey c2) := by
  have h96e : satMul session.bet_lamports 96 = session.bet_lamports * 96 :=
    satMul_eq h96
  simp only [emergency_player_refund] at hok
  split at hok
  case _ => exact Except.noConfusion hok
  case _ hst =>
  split at hok
  case _ => exact Except.noConfusion hok
  case _ hpl =>
  split at hok
  case _ => exact Except.noConfusion hok
  case _ hworst =>
  split at hok
  case _ e => exact Except.noConfusion hok
  case _ lamports2 hsub =>
  split at hok
  case _ e => exact Except.noConfusion hok
  case _ pool3 hsync =>
  cases hok
  obtain ⟨hsubv, hsuble⟩ := chkSub_ok hsub
  obtain ⟨hsle, rfl⟩ := sync_ok hsync
  subst hsubv
  rw [not_not] at hst hworst
  refine ⟨hst, by omega, by dsimp only; rw [h96e],
    by dsimp only; rw [h96e], ?_, rfl, fun c1 c2 => rfl⟩
  dsimp only
  rw [h96e]
  exact satAdd_eq (by omega)

/-- Witness for C9: a concrete successful emergency refund against an empty
pool (liquid balance 0 < worst-case payout 0.019 SOL). -/
theorem c9_witness :
    (mkBetSession 10000000 0 (0, 0, 0)).game_state = 0 ∧
    initPool.total_balance <
      get_worst_payout (mkBetSession 10000000 0 (0, 0, 0)).bet_lamports
        (mkBetSession 10000000 0 (0, 0, 0)).game_type
        ((mkBetSession 10000000 0 (0, 0, 0)).target_x,
         (mkBetSession 10000000 0 (0, 0, 0)).target_y,
         (mkBetSession 10000000 0 (0, 0, 0)).target_radius) := by
  cases hs : emergency_player_refund initPool 20000000 0
      (mkBetSession 10000000 0 (0, 0, 0)) 0 42 with
  | error e =>
    have h2 : (emergency_player_refund initPool 20000000 0
      (mkBetSession 10000000 0 (0, 0, 0)) 0 42).isOk = true := by decide
    rw [hs] at h2
    exact Bool.noConfusion h2
  | ok res =>
    have h := c9_emergency_player_refund initPool 20000000 0
      (mkBetSession 10000000 0 (0, 0, 0)) 0 42 res (by decide) (by decide) hs
    exact ⟨h.1, h.2.1⟩

/-! ### Inversion lemmas: what each successful instruction did -/

theorem fund_pool_ok {pool : GlobalPool} {lamports rent amount : Nat}
    {x : GlobalPool × Nat} (h : fund_pool pool lamports rent amount = .ok x) :
    0 < amount ∧ lamports + amount ≤ U64MAX ∧ x.2 = lamports + amount ∧
    sync_pool_balance pool (lamports + amount) rent = .ok x.1 := by
  simp only [fund_pool] at h
  split at h
  case isTrue h1 => exact Except.noConfusion h
  case isFalse h1 =>
  split at h
  case _ e => exact Except.noConfusion h
  case _ l2 hadd =>
  obtain ⟨rfl, hle⟩ := chkAdd_ok hadd
  split at h
  case _ e => exact Except.noConfusion h
  case _ p2 hsync =>
  cases h
  exact ⟨by omega, hle, rfl, hsync⟩

theorem place_bet_ok {pool : GlobalPool}
    {lamports rent slot playerKey referrerKey referrerOwner game_type : Nat}
    {commitment : List Nat} {bet_lamports : Nat}
    {game_config : Nat × Nat × Nat} {x : PlaceBetResult}
    (h : place_bet pool lamports rent slot playerKey referrerKey referrerOwner
      game_type commitment bet_lamports game_config = .ok x) :
    pool.paused = false ∧ MIN_POOL ≤ pool.total_balance ∧
    10000000 ≤ bet_lamports ∧ game_type ≤ 3 ∧
    configCheck game_type game_config = .ok () ∧
    bet_lamports ≤ get_max_bet pool.total_balance game_type ∧
    get_worst_payout bet_lamports game_type game_config ≤
      get_max_payout_cap pool.total_balance ∧
    lamports + bet_lamports ≤ U64MAX ∧ x.lamports = lamports + bet_lamports ∧
    (∃ pool2, sync_pool_balance pool (lamports + bet_lamports) rent = .ok pool2
      ∧ x.pool = { pool2 with
          total_wagered := wrapAdd pool2.total_wagered bet_lamports
          total_bets := wrapAdd pool2.total_bets 1 }) ∧
    x.session.game_state = 0 ∧ x.session.bet_lamports = bet_lamports := by
  simp only [place_bet] at h
  split at h
  case isTrue h1 => exact Except.noConfusion h
  case isFalse h1 =>
  split at h
  case isTrue h2 => exact Except.noConfusion h
  case isFalse h2 =>
  split at h
  case isTrue h3 => exact Except.noConfusion h
  case isFalse h3 =>
  split at h
  case isTrue h4 => exact Except.noConfusion h
  case isFalse h4 =>
  split at h
  case _ e => exact Except.noConfusion h
  case _ u hcfg =>
  split at h
  case isTrue h5 => exact Except.noConfusion h
  case isFalse h5 =>
  split at h
  case isTrue h6 => exact Except.noConfusion h
  case isFalse h6 =>
  split at h
  case isTrue h7 => exact Except.noConfusion h
  case isFalse h7 =>
  split at h
  case isTrue h8 => exact Except.noConfusion h
  case isFalse h8 =>
  split at h
  case _ e => exact Except.noConfusion h
  case _ l2 hadd =>
  obtain ⟨rfl, hle⟩ := chkAdd_ok hadd
  split at h
  case _ e => exact Except.noConfusion h
  case _ p2 hsync =>
  cases h
  refine ⟨by simpa using h1, by omega, by omega, by omega,
    by cases u; exact hcfg, by omega, by omega, hle, rfl, ⟨p2, hsync, rfl⟩,
    rfl, rfl⟩

theorem claim_forfeit_ok {pool : GlobalPool} {lamports rent : Nat}
    {session : GameSession} {slot sessionLamports : Nat}
    {x : GlobalPool × Nat × GameSession}
    (h : claim_forfeit pool lamports rent session slot sessionLamports =
      .ok x) :
    session.game_state < 2 ∧ satAdd session.forfeit_slot 200 < slot ∧
    sync_pool_balance pool lamports rent = .ok x.1 ∧
    lamports + sessionLamports ≤ U64MAX ∧
    x.2.1 = lamports + sessionLamports ∧
    x.2.2 = { session with game_state := 2 } := by
  simp only [claim_forfeit] at h
  split at h
  case isTrue h1 => exact Except.noConfusion h
  case isFalse h1 =>
  rw [not_not] at h1
  split at h
  case _ e => exact Except.noConfusion h
  case _ p2 hsync =>
  split at h
  case _ e => exact Except.noConfusion h
  case _ l2 hadd =>
  obtain ⟨rfl, hle⟩ := chkAdd_ok hadd
  cases h
  exact ⟨h1.1, h1.2, hsync, hle, rfl, rfl⟩

theorem emergency_refund_ok {pool : GlobalPool} {lamports rent : Nat}
    {session : GameSession} {slot callerKey : Nat} {x : RefundResult}
    (h : emergency_refund pool lamports rent session slot callerKey = .ok x) :
    session.game_state = 0 ∧ session.forfeit_slot < slot ∧
    session.player = callerKey ∧
    satMul session.bet_lamports 90 / 100 ≤ pool.total_balance ∧
    satMul session.bet_lamports 90 / 100 ≤ lamports ∧
    x.lamports = lamports - satMul session.bet_lamports 90 / 100 ∧
    sync_pool_balance { pool with house_fees_earned := satAdd pool.house_fees_earned (session.bet_lamports - satMul session.bet_lamports 90 / 100) }
      (lamports - satMul session.bet_lamports 90 / 100) rent = .ok x.pool ∧
    x.session = { session with game_state := 2 } := by
  simp only [emergency_refund] at h
  split at h
  case isTrue h1 => exact Except.noConfusion h
  case isFalse h1 =>
  split at h
  case isTrue h2 => exact Except.noConfusion h
  case isFalse h2 =>
  split at h
  case isTrue h3 => exact Except.noConfusion h
  case isFalse h3 =>
  split at h
  case isTrue h4 => exact Except.noConfusion h
  case isFalse h4 =>
  rw [not_not] at h1 h2 h3 h4
  split at h
  case _ e => exact Except.noConfusion h
  case _ l2 hsub =>
  obtain ⟨rfl, hle⟩ := chkSub_ok hsub
  split at h
  case _ e => exact Except.noConfusion h
  case _ p3 hsync =>
  cases h
  exact ⟨h1, h2, h3, h4, hle, rfl, hsync, rfl⟩

theorem emergency_player_refund_ok {pool : GlobalPool} {lamports rent : Nat}
    {session : GameSession} {playerKey callerKey : Nat} {x : RefundResult}
    (h : emergency_player_refund pool lamports rent session playerKey
      callerKey = .ok x) :
    session.game_state = 0 ∧ session.player = playerKey ∧
    pool.total_balance < get_worst_payout session.bet_lamports
      session.game_type
      (session.target_x, session.target_y, session.target_radius) ∧
    satMul session.bet_lamports 96 / 100 ≤ lamports ∧
    x.lamports = lamports - satMul session.bet_lamports 96 / 100 ∧
    sync_pool_balance { pool with house_fees_earned := satAdd pool.house_fees_earned (session.bet_lamports - satMul session.bet_lamports 96 / 100) }
      (lamports - satMul session.bet_lamports 96 / 100) rent = .ok x.pool ∧
    x.session = { session with game_state := 2 } := by
  simp only [emergency_player_refund] at h
  split at h
  case isTrue h1 => exact Except.noConfusion h
  case isFalse h1 =>
  split at h
  case isTrue h2 => exact Except.noConfusion h
  case isFalse h2 =>
  split at h
  case isTrue h3 => exact Except.noConfusion h
  case isFalse h3 =>
  rw [not_not] at h1 h2 h3
  split at h
  case _ e => exact Except.noConfusion h
  case _ l2 hsub =>
  obtain ⟨rfl, hle⟩ := chkSub_ok hsub
  split at h
  case _ e => exact Except.noConfusion h
  case _ p3 hsync =>
  cases h
  exact ⟨h1, h2, h3, hle, rfl, hsync, rfl⟩

theorem execute_withdrawal_ok {pool : GlobalPool} {lamports rent : Nat}
    {now : Int} {x : GlobalPool × Nat}
    (h : execute_withdrawal pool lamports rent now = .ok x) :
    ∃ req, pool.withdrawal_request = some req ∧ req.unlocks_at ≤ now ∧
      req.amount ≤ pool.total_balance ∧ req.amount ≤ lamports ∧
      x.2 = lamports - req.amount ∧
      sync_pool_balance { pool with withdrawal_request := none }
        (lamports - req.amount) rent = .ok x.1 := by
  simp only [execute_withdrawal] at h
  split at h
  case _ hreq => exact Except.noConfusion h
  case _ req hreq =>
  split at h
  case isTrue h1 => exact Except.noConfusion h
  case isFalse h1 =>
  split at h
  case isTrue h2 => exact Except.noConfusion h
  case isFalse h2 =>
  rw [not_not] at h1 h2
  split at h
  case _ e => exact Except.noConfusion h
  case _ l2 hsub =>
  obtain ⟨rfl, hle⟩ := chkSub_ok hsub
  split at h
  case _ e => exact Except.noConfusion h
  case _ p3 hsync =>
  cases h
  exact ⟨req, hreq, h1, h2, hle, rfl, hsync⟩

theorem claim_house_fees_ok {pool : GlobalPool} {lamports rent amount : Nat}
    {x : GlobalPool × Nat}
    (h : claim_house_fees pool lamports rent amount = .ok x) :
    0 < amount ∧ amount ≤ pool.house_fees_earned ∧
    amount ≤ lamports - rent ∧ amount ≤ lamports ∧
    x.2 = lamports - amount ∧
    sync_pool_balance { pool with house_fees_earned := pool.house_fees_earned - amount }
      (lamports - amount) rent = .ok x.1 := by
  simp only [claim_house_fees] at h
  split at h
  case isTrue h1 => exact Except.noConfusion h
  case isFalse h1 =>
  split at h
  case isTrue h2 => exact Except.noConfusion h
  case isFalse h2 =>
  split at h
  case isTrue h3 => exact Except.noConfusion h
  case isFalse h3 =>
  rw [not_not] at h2 h3
  split at h
  case _ e => exact Except.noConfusion h
  case _ l2 hsub =>
  obtain ⟨rfl, hle⟩ := chkSub_ok hsub
  split at h
  case _ e => exact Except.noConfusion h
  case _ p3 hsync =>
  cases h
  exact ⟨by omega, h2, h3, hle, rfl, hsync⟩

theorem reinvest_house_fees_ok {pool : GlobalPool} {lamports rent amount : Nat}
    {x : GlobalPool}
    (h : reinvest_house_fees pool lamports rent amount = .ok x) :
    0 < amount ∧ amount ≤ pool.house_fees_earned ∧
    sync_pool_balance { pool with house_fees_earned := pool.house_fees_earned - amount }
      lamports rent = .ok x := by
  simp only [reinvest_house_fees] at h
  split at h
  case isTrue h1 => exact Except.noConfusion h
  case isFalse h1 =>
  split at h
  case isTrue h2 => exact Except.noConfusion h
  case isFalse h2 =>
  rw [not_not] at h2
  exact ⟨by omega, h2, h⟩

theorem request_withdrawal_ok {pool : GlobalPool} {now : Int} {amount : Nat}
    {x : GlobalPool}
    (h : request_withdrawal pool now amount = .ok x) :
    x = { pool with withdrawal_request := some ⟨amount, now, now + 172800⟩ } := by
  simp only [request_withdrawal] at h
  split at h
  case isTrue h1 => exact Except.noConfusion h
  case isFalse h1 =>
  split at h
  case isTrue h2 => exact Except.noConfusion h
  case isFalse h2 =>
  cases h
  rfl

theorem reveal_game_ok {game_type : Nat} {hashFn : List Nat → List Nat}
    {entries : List (Nat × List Nat)} {blake : List Nat → List Nat}
    {nonce : List Nat} {slot : Nat} {pool : GlobalPool}
    {lamports rent refLamports : Nat} {refCanReceive : Bool}
    {session : GameSession} {rr : RevealResult}
    (h : reveal_game game_type hashFn entries blake nonce slot pool lamports
      rent refLamports refCanReceive session = .ok rr) :
    ∃ seed, validate_and_extract_seed hashFn entries blake session slot nonce
        game_type = .ok seed ∧
      settle_outcome pool lamports rent refLamports refCanReceive session
        (dispatchResolve game_type seed session).1
        (dispatchResolve game_type seed session).2 seed =
        .ok ⟨rr.pool, rr.lamports, rr.playerReceives, rr.refReceives⟩ ∧
      rr.session = { session with game_state := 2 } := by
  simp only [reveal_game] at h
  split at h
  case _ e => exact Except.noConfusion h
  case _ seed hval =>
  split at h
  case _ e => exact Except.noConfusion h
  case _ sr hset =>
  cases h
  exact ⟨seed, hval, hset, rfl⟩

theorem reveal_game_delegated_ok {expires_at now : Int} {game_type : Nat}
    {hashFn : List Nat → List Nat} {entries : List (Nat × List Nat)}
    {blake : List Nat → List Nat} {nonce : List Nat} {slot : Nat}
    {pool : GlobalPool} {lamports rent refLamports : Nat}
    {refCanReceive : Bool} {session : GameSession} {rr : RevealResult}
    (h : reveal_game_delegated expires_at now game_type hashFn entries blake
      nonce slot pool lamports rent refLamports refCanReceive session =
      .ok rr) :
    now < expires_at ∧
    reveal_game game_type hashFn entries blake nonce slot pool lamports rent
      refLamports refCanReceive session = .ok rr := by
  simp only [reveal_game_delegated] at h
  split at h
  case isTrue h1 => exact Except.noConfusion h
  case isFalse h1 =>
  exact ⟨not_not.mp h1, h⟩

/-! ### Session lifecycle (C3) -/

/-- The terminating operations on a session, each carrying the full
environment its instruction takes besides the session itself. -/
inductive SessOp where
  | reveal (game_type : Nat) (hashFn : List Nat → List Nat)
      (entries : List (Nat × List Nat)) (blake : List Nat → List Nat)
      (nonce : List Nat) (slot : Nat) (pool : GlobalPool)
      (lamports rent refLamports : Nat) (refCanReceive : Bool)
  | revealDelegated (expires_at now : Int) (game_type : Nat)
      (hashFn : List Nat → List Nat) (entries : List (Nat × List Nat))
      (blake : List Nat → List Nat) (nonce : List Nat) (slot : Nat)
      (pool : GlobalPool) (lamports rent refLamports : Nat)
      (refCanReceive : Bool)
  | claimForfeit (pool : GlobalPool) (lamports rent slot sessionLamports : Nat)
  | emergencyRefund (pool : GlobalPool) (lamports rent slot callerKey : Nat)
  | emergencyPlayerRefund (pool : GlobalPool)
      (lamports rent playerKey callerKey : Nat)

/-- Run one terminating operation against a session, returning the session it
leaves behind on success. -/
def applySessOp : SessOp → GameSession → Except BlitzError GameSession
  | .reveal g hf en bl n sl p l r rl rc, s =>
    match reveal_game g hf en bl n sl p l r rl rc s with
    | .error e => .error e
    | .ok rr => .ok rr.session
  | .revealDelegated ea now g hf en bl n sl p l r rl rc, s =>
    match reveal_game_delegated ea now g hf en bl n sl p l r rl rc s with
    | .error e => .error e
    | .ok rr => .ok rr.session
  | .claimForfeit p l r sl sesl, s =>
    match claim_forfeit p l r s sl sesl with
    | .error e => .error e
    | .ok x => .ok x.2.2
  | .emergencyRefund p l r sl ck, s =>
    match emergency_refund p l r s sl ck with
    | .error e => .error e
    | .ok x => .ok x.session
  | .emergencyPlayerRefund p l r pk ck, s =>
    match emergency_player_refund p l r s pk ck with
    | .error e => .error e
    | .ok x => .ok x.session

/-- Run a sequence of terminating operations, a failed operation leaving the
session unchanged, and count the operations that succeeded. -/
def runSessOps (ops : List SessOp) (s : GameSession) : GameSession × Nat :=
  ops.foldl (fun acc op =>
    match applySessOp op acc.1 with
    | .ok s2 => (s2, acc.2 + 1)
    | .error _ => acc) (s, 0)

/-- A successful validation requires a Pending session. -/
theorem validate_ok_state {hashFn : List Nat → List Nat}
    {entries : List (Nat × List Nat)} {blake : List Nat → List Nat}
    {session : GameSession} {slot : Nat} {nonce : List Nat} {g : Nat}
    {seed : List Nat}
    (h : validate_and_extract_seed hashFn entries blake session slot nonce g =
      .ok seed) : session.game_state = 0 := by
  simp only [validate_and_extract_seed] at h
  split_ifs at h with h1 <;> first
    | exact Except.noConfusion h
    | exact h1
    | exact not_not.mp h1

/-- Every terminating operation succeeds only on a non-terminal session and
leaves the session terminal. -/
theorem applySessOp_ok {op : SessOp} {s s2 : GameSession}
    (h : applySessOp op s = .ok s2) :
    s.game_state ≠ 2 ∧ s2.game_state = 2 := by
  cases op with
  | reveal g hf en bl n sl p l r rl rc =>
    simp only [applySessOp] at h
    split at h
    case _ e heq => exact Except.noConfusion h
    case _ rr heq =>
    cases h
    obtain ⟨seed, hval, _, hsess⟩ := reveal_game_ok heq
    rw [hsess]
    exact ⟨by rw [validate_ok_state hval]; omega, rfl⟩
  | revealDelegated ea now g hf en bl n sl p l r rl rc =>
    simp only [applySessOp] at h
    split at h
    case _ e heq => exact Except.noConfusion h
    case _ rr heq =>
    cases h
    obtain ⟨_, heq2⟩ := reveal_game_delegated_ok heq
    obtain ⟨seed, hval, _, hsess⟩ := reveal_game_ok heq2
    rw [hsess]
    exact ⟨by rw [validate_ok_state hval]; omega, rfl⟩
  | claimForfeit p l r sl sesl =>
    simp only [applySessOp] at h
    split at h
    case _ e heq => exact Except.noConfusion h
    case _ x heq =>
    cases h
    obtain ⟨hst, _, _, _, _, hsess⟩ := claim_forfeit_ok heq
    rw [hsess]
    exact ⟨by omega, rfl⟩
  | emergencyRefund p l r sl ck =>
    simp only [applySessOp] at h
    split at h
    case _ e heq => exact Except.noConfusion h
    case _ x heq =>
    cases h
    obtain ⟨hst, _, _, _, _, _, _, hsess⟩ := emergency_refund_ok heq
    rw [hsess]
    exact ⟨by omega, rfl⟩
  | emergencyPlayerRefund p l r pk ck =>
    simp only [applySessOp] at h
    split at h
    case _ e heq => exact Except.noConfusion h
    case _ x heq =>
    cases h
    obtain ⟨hst, _, _, _, _, _, hsess⟩ := emergency_player_refund_ok heq
    rw [hsess]
    exact ⟨by omega, rfl⟩

/-- A terminal session is stuck: every terminating operation fails on it and
the fold leaves state and count unchanged. -/
theorem runSessOps_terminal (ops : List SessOp) (s : GameSession) (c : Nat)
    (h : s.game_state = 2) :
    ops.foldl (fun acc op =>
      match applySessOp op acc.1 with
      | .ok s2 => (s2, acc.2 + 1)
      | .error _ => acc) (s, c) = (s, c) := by
  induction ops with
  | nil => rfl
  | cons op ops ih =>
    rw [List.foldl_cons]
    cases hop : applySessOp op s with
    | ok s2 => exact absurd h (applySessOp_ok hop).1
    | error e => simpa [hop] using ih

/-- C3: `place_bet` creates every session Pending (`game_state = 0`); every
terminating operation — any direct or delegated reveal, `claim_forfeit`,
`emergency_refund`, `emergency_player_refund` — succeeds only on a
non-terminal session and leaves it terminal (`game_state = 2`); a terminal
session is stuck under every further operation sequence; and along any
operation sequence a Pending session is terminated by at most one successful
operation. -/
theorem c3_session_lifecycle :
    (∀ (pool : GlobalPool)
      (lamports rent slot playerKey referrerKey referrerOwner game_type : Nat)
      (commitment : List Nat) (bet_lamports : Nat)
      (game_config : Nat × Nat × Nat) (x : PlaceBetResult),
      place_bet pool lamports rent slot playerKey referrerKey referrerOwner
        game_type commitment bet_lamports game_config = .ok x →
      x.session.game_state = 0) ∧
    (∀ (op : SessOp) (s s2 : GameSession), applySessOp op s = .ok s2 →
      s.game_state ≠ 2 ∧ s2.game_state = 2) ∧
    (∀ (ops : List SessOp) (s : GameSession), s.game_state = 2 →
      runSessOps ops s = (s, 0)) ∧
    (∀ (ops : List SessOp) (s : GameSession), s.game_state = 0 →
      (runSessOps ops s).2 ≤ 1) := by
  refine ⟨?_, fun op s s2 h => applySessOp_ok h, ?_, ?_⟩
  · intro pool lamports rent slot pk rk ro g comm bet cfg x h
    exact (place_bet_ok h).2.2.2.2.2.2.2.2.2.2.1
  · intro ops s h
    exact runSessOps_terminal ops s 0 h
  · intro ops s h0
    induction ops with
    | nil => simp [runSessOps]
    | cons op ops ih =>
      simp only [runSessOps, List.foldl_cons] at ih ⊢
      cases hop : applySessOp op s with
      | ok s2 =>
        have h2 := (applySessOp_ok hop).2
        simp only [hop]
        rw [runSessOps_terminal ops s2 1 h2]
      | error e =>
        simp only [hop]
        exact ih

/-- Witness for C3: a concrete terminal session is stuck under the empty
operation sequence. -/
theorem c3_witness :
    ({ mkBetSession 10000000 0 (0, 0, 0) with game_state := 2 } :
      GameSession).game_state = 2 ∧
    runSessOps [] { mkBetSession 10000000 0 (0, 0, 0) with game_state := 2 } =
      ({ mkBetSession 10000000 0 (0, 0, 0) with game_state := 2 }, 0) :=
  ⟨rfl, c3_session_lifecycle.2.2.1 []
    { mkBetSession 10000000 0 (0, 0, 0) with game_state := 2 } rfl⟩

/-! ### Pool-level reachability (C1) -/

/-- On-chain state relevant to the pool: the pool account's data, its
physical lamports, its (constant) rent-exempt reserve, the (constant)
rent-exempt balance a session account is created with, and the open sessions
created by `place_bet`. -/
structure ChainState where
  pool : GlobalPool
  lamports : Nat
  rent : Nat
  sessRent : Nat
  sessions : List GameSession
  deriving DecidableEq

/-- State after `initialize` (lib.rs:59-70): zeroed pool fields, the account
funded with exactly its rent-exempt reserve, no sessions. -/
def initChainState (rent sessRent : Nat) : ChainState :=
  ⟨initPool, rent, rent, sessRent, []⟩

/-- Tags identifying which instruction a step runs. -/
inductive OpTag where
  | fundPool
  | placeBet
  | reveal
  | claimForfeit
  | emergencyRefund
  | emergencyPlayerRefund
  | executeWithdrawal
  | claimHouseFees
  | reinvestHouseFees
  | requestWithdrawal
  | setPaused
  deriving DecidableEq

/-- One successful instruction execution against the chain state.  Reveal and
refund instructions consume an open session (their session account is closed
to the player); `claim_forfeit` consumes a session and its account's lamports
go to the pool (`close = pool`, lib.rs:1158). -/
inductive Step : OpTag → ChainState → ChainState → Prop where
  | fund (s : ChainState) (amount : Nat) (x : GlobalPool × Nat) :
      fund_pool s.pool s.lamports s.rent amount = .ok x →
      Step .fundPool s { s with pool := x.1, lamports := x.2 }
  | place (s : ChainState)
      (slot playerKey referrerKey referrerOwner game_type : Nat)
      (commitment : List Nat) (bet_lamports : Nat)
      (game_config : Nat × Nat × Nat) (x : PlaceBetResult) :
      place_bet s.pool s.lamports s.rent slot playerKey referrerKey
        referrerOwner game_type commitment bet_lamports game_config = .ok x →
      Step .placeBet s { s with
        pool := x.pool
        lamports := x.lamports
        sessions := x.session :: s.sessions }
  | reveal (s : ChainState) (sess : GameSession) (game_type : Nat)
      (hashFn : List Nat → List Nat) (entries : List (Nat × List Nat))
      (blake : List Nat → List Nat) (nonce : List Nat)
      (slot refLamports : Nat) (refCanReceive : Bool) (x : RevealResult) :
      sess ∈ s.sessions →
      reveal_game game_type hashFn entries blake nonce slot s.pool s.lamports
        s.rent refLamports refCanReceive sess = .ok x →
      Step .reveal s { s with
        pool := x.pool
        lamports := x.lamports
        sessions := s.sessions.erase sess }
  | revealDelegated (s : ChainState) (sess : GameSession)
      (expires_at now : Int) (game_type : Nat)
      (hashFn : List Nat → List Nat) (entries : List (Nat × List Nat))
      (blake : List Nat → List Nat) (nonce : List Nat)
      (slot refLamports : Nat) (refCanReceive : Bool) (x : RevealResult) :
      sess ∈ s.sessions →
      reveal_game_delegated expires_at now game_type hashFn entries blake
        nonce slot s.pool s.lamports s.rent refLamports refCanReceive sess =
        .ok x →
      Step .reveal s { s with
        pool := x.pool
        lamports := x.lamports
        sessions := s.sessions.erase sess }
  | forfeit (s : ChainState) (sess : GameSession) (slot : Nat)
      (x : GlobalPool × Nat × GameSession) :
      sess ∈ s.sessions →
      claim_forfeit s.pool s.lamports s.rent sess slot s.sessRent = .ok x →
      Step .claimForfeit s { s with
        pool := x.1
        lamports := x.2.1
        sessions := s.sessions.erase sess }
  | emRefund (s : ChainState) (sess : GameSession) (slot callerKey : Nat)
      (x : RefundResult) :
      sess ∈ s.sessions →
      emergency_refund s.pool s.lamports s.rent sess slot callerKey = .ok x →
      Step .emergencyRefund s { s with
        pool := x.pool
        lamports := x.lamports
        sessions := s.sessions.erase sess }
  | emPlayerRefund (s : ChainState) (sess : GameSession)
      (playerKey callerKey : Nat) (x : RefundResult) :
      sess ∈ s.sessions →
      emergency_player_refund s.pool s.lamports s.rent sess playerKey
        callerKey = .ok x →
      Step .emergencyPlayerRefund s { s with
        pool := x.pool
        lamports := x.lamports
        sessions := s.sessions.erase sess }
  | execWithdraw (s : ChainState) (now : Int) (x : GlobalPool × Nat) :
      execute_withdrawal s.pool s.lamports s.rent now = .ok x →
      Step .executeWithdrawal s { s with pool := x.1, lamports := x.2 }
  | claimFees (s : ChainState) (amount : Nat) (x : GlobalPool × Nat) :
      claim_house_fees s.pool s.lamports s.rent amount = .ok x →
      Step .claimHouseFees s { s with pool := x.1, lamports := x.2 }
  | reinvest (s : ChainState) (amount : Nat) (x : GlobalPool) :
      reinvest_house_fees s.pool s.lamports s.rent amount = .ok x →
      Step .reinvestHouseFees s { s with pool := x }
  | reqWithdraw (s : ChainState) (now : Int) (amount : Nat) (x : GlobalPool) :
      request_withdrawal s.pool now amount = .ok x →
      Step .requestWithdrawal s { s with pool := x }
  | pause (s : ChainState) (b : Bool) :
      Step .setPaused s { s with pool := set_paused s.pool b }

/-- Pool states reachable from `initialize` through successful instructions.
The rent reserve is a real `u64` balance. -/
inductive Reachable : ChainState → Prop where
  | init (rent sessRent : Nat) (h : rent ≤ U64MAX) :
      Reachable (initChainState rent sessRent)
  | step {t : OpTag} {s s2 : ChainState} :
      Reachable s → Step t s s2 → Reachable s2

/-- Inductive invariant: physical lamports are a `u64`; the stored liquid
balance plus both reserves fit under physical lamports minus rent; every open
session carries at least the 0.01 SOL minimum bet. -/
def Wf (s : ChainState) : Prop :=
  s.lamports ≤ U64MAX ∧
  s.pool.total_balance +
    (s.pool.house_fees_earned + s.pool.jackpot_balance) ≤
    s.lamports - s.rent ∧
  ∀ sess ∈ s.sessions, 10000000 ≤ sess.bet_lamports

theorem wf_init (rent sessRent : Nat) (h : rent ≤ U64MAX) :
    Wf (initChainState rent sessRent) := by
  refine ⟨h, ?_, by intro sess hs; cases hs⟩
  simp [initChainState, initPool]

/-- Below `u64::MAX`, a bound on a saturating add is a bound on the exact
sum. -/
theorem satAdd_le_of_lt {a b x : Nat} (hx : x < U64MAX)
    (h : satAdd a b ≤ x) : a + b ≤ x := by
  rcases le_or_lt (a + b) U64MAX with hle | hgt
  · rwa [satAdd_eq hle] at h
  · rw [satAdd, min_eq_right (le_of_lt hgt)] at h
    omega

/-- A 0.01 SOL bet yields a positive 90% (and 96%) refund. -/
theorem refund_pos {bet m : Nat} (hbet : 10000000 ≤ bet) (hm : 90 ≤ m) :
    0 < satMul bet m / 100 := by
  have h1 : 900000000 ≤ satMul bet m := by
    rw [satMul]
    refine le_min ?_ (by unfold U64MAX; omega)
    calc (900000000 : Nat) = 10000000 * 90 := by norm_num
    _ ≤ bet * m := Nat.mul_le_mul hbet hm
  omega

set_option maxHeartbeats 1000000 in
/-- One successful step preserves the invariant; after every step that ends
in `sync_pool_balance` the stored liquid balance equals physical lamports
minus rent minus both reserves, except after `claim_forfeit`, where the
closed session account's lamports reach the pool *after* the sync, so the
stored balance is short by exactly `sessRent` until the next sync. -/
theorem wf_step {t : OpTag} {s s2 : ChainState} (hwf : Wf s)
    (hstep : Step t s s2) :
    Wf s2 ∧
    (t ≠ .claimForfeit → t ≠ .requestWithdrawal → t ≠ .setPaused →
      s2.pool.total_balance = s2.lamports - s2.rent -
        (s2.pool.house_fees_earned + s2.pool.jackpot_balance)) ∧
    (t = .claimForfeit →
      s2.pool.total_balance = s2.lamports - s2.rent -
        (s2.pool.house_fees_earned + s2.pool.jackpot_balance) - s2.sessRent) := by
  obtain ⟨hlam, hcore, hsess⟩ := hwf
  have hhjM : s.pool.house_fees_earned + s.pool.jackpot_balance ≤ U64MAX := by
    omega
  cases hstep with
  | fund s amount x heq =>
    obtain ⟨hpos, hle, hx2, hsync⟩ := fund_pool_ok heq
    obtain ⟨hsle, hx1⟩ := sync_ok hsync
    rw [satAdd_eq hhjM] at hsle hx1
    refine ⟨⟨?_, ?_, ?_⟩, ?_, ?_⟩
    · dsimp only; omega
    · dsimp only; rw [hx1, hx2]; dsimp only; omega
    · dsimp only; exact hsess
    · intro _ _ _; dsimp only; rw [hx1, hx2]
    · intro hcf; exact OpTag.noConfusion hcf
  | place s slot pk rk ro g comm bet cfg x heq =>
    obtain ⟨hpaused, hmin, hbet, hg, hcfg, hmax, hcap, hle, hxl, ⟨pool2, hsync,
      hxp⟩, hsst, hsbet⟩ := place_bet_ok heq
    obtain ⟨hsle, hp2⟩ := sync_ok hsync
    rw [satAdd_eq hhjM] at hsle hp2
    subst hp2
    refine ⟨⟨?_, ?_, ?_⟩, ?_, ?_⟩
    · dsimp only; omega
    · dsimp only; rw [hxp, hxl]; dsimp only; omega
    · dsimp only
      intro sess hmem
      rcases List.mem_cons.mp hmem with h | h
      · rw [h, hsbet]; exact hbet
      · exact hsess sess h
    · intro _ _ _; dsimp only; rw [hxp, hxl]
    · intro hcf; exact OpTag.noConfusion hcf
  | reveal s sess g hf en bl n sl rl rc x hmem heq =>
    obtain ⟨seed, hval, hset, hsess2⟩ := reveal_game_ok heq
    have parts := settle_ok_parts hset
    dsimp only at parts
    obtain ⟨pA, pB, pC, pD, pE, _, _, pG, pH⟩ := parts
    have hprize := jackpotPrize_le sess.bet_lamports s.pool.jackpot_balance
      seed
    have hhcut : s.pool.house_fees_earned +
        (settleFees sess.bet_lamports sess.referrer sess.player rl
          sess.game_type).1 ≤ U64MAX := by omega
    have hjcut : (s.pool.jackpot_balance -
        jackpotPrize sess.bet_lamports s.pool.jackpot_balance seed) +
        (settleFees sess.bet_lamports sess.referrer sess.player rl
          sess.game_type).2.2 ≤ U64MAX := by omega
    rw [satAdd_eq hhcut] at pE
    rw [satAdd_eq hjcut] at pD
    rw [pD, pE] at pG pH
    rw [satAdd_eq (by omega)] at pG pH
    refine ⟨⟨?_, ?_, ?_⟩, ?_, ?_⟩
    · dsimp only; omega
    · dsimp only; rw [pH, pD, pE]; omega
    · dsimp only
      intro sess2 hmem2
      exact hsess sess2 (List.mem_of_mem_erase hmem2)
    · intro _ _ _; dsimp only; rw [pH, pD, pE]
    · intro hcf; exact OpTag.noConfusion hcf
  | revealDelegated s sess ea now g hf en bl n sl rl rc x hmem heq =>
    obtain ⟨hexp, heq2⟩ := reveal_game_delegated_ok heq
    obtain ⟨seed, hval, hset, hsess2⟩ := reveal_game_ok heq2
    have parts := settle_ok_parts hset
    dsimp only at parts
    obtain ⟨pA, pB, pC, pD, pE, _, _, pG, pH⟩ := parts
    have hprize := jackpotPrize_le sess.bet_lamports s.pool.jackpot_balance
      seed
    have hhcut : s.pool.house_fees_earned +
        (settleFees sess.bet_lamports sess.referrer sess.player rl
          sess.game_type).1 ≤ U64MAX := by omega
    have hjcut : (s.pool.jackpot_balance -
        jackpotPrize sess.bet_lamports s.pool.jackpot_balance seed) +
        (settleFees sess.bet_lamports sess.referrer sess.player rl
          sess.game_type).2.2 ≤ U64MAX := by omega
    rw [satAdd_eq hhcut] at pE
    rw [satAdd_eq hjcut] at pD
    rw [pD, pE] at pG pH
    rw [satAdd_eq (by omega)] at pG pH
    refine ⟨⟨?_, ?_, ?_⟩, ?_, ?_⟩
    · dsimp only; omega
    · dsimp only; rw [pH, pD, pE]; omega
    · dsimp only
      intro sess2 hmem2
      exact hsess sess2 (List.mem_of_mem_erase hmem2)
    · intro _ _ _; dsimp only; rw [pH, pD, pE]
    · intro hcf; exact OpTag.noConfusion hcf
  | forfeit s sess sl x hmem heq =>
    obtain ⟨hst, hslot, hsync, hle, hx21, hx22⟩ := claim_forfeit_ok heq
    obtain ⟨hsle, hx1⟩ := sync_ok hsync
    rw [satAdd_eq hhjM] at hsle hx1
    refine ⟨⟨?_, ?_, ?_⟩, ?_, ?_⟩
    · dsimp only; omega
    · dsimp only; rw [hx1, hx21]; dsimp only; omega
    · dsimp only
      intro sess2 hmem2
      exact hsess sess2 (List.mem_of_mem_erase hmem2)
    · intro hcf; exact absurd rfl hcf
    · intro _; dsimp only; rw [hx1, hx21]; dsimp only; omega
  | emRefund s sess sl ck x hmem heq =>
    obtain ⟨hst, hslot, hpl, hbal, hrle, hxl, hsync, hxs⟩ :=
      emergency_refund_ok heq
    obtain ⟨hsle, hx1⟩ := sync_ok hsync
    dsimp only at hsle hx1
    have hbet := hsess sess hmem
    have hrpos : 0 < satMul sess.bet_lamports 90 / 100 :=
      refund_pos hbet (by norm_num)
    have hlt : s.lamports - satMul sess.bet_lamports 90 / 100 - s.rent <
        U64MAX := by omega
    have houter := satAdd_le_of_lt hlt hsle
    have hinner := satAdd_le_of_lt hlt
      (le_trans (Nat.le_add_right _ _) houter)
    have e1 : satAdd s.pool.house_fees_earned
        (sess.bet_lamports - satMul sess.bet_lamports 90 / 100) =
        s.pool.house_fees_earned +
        (sess.bet_lamports - satMul sess.bet_lamports 90 / 100) :=
      satAdd_eq (by omega)
    rw [e1] at hsle hx1 houter
    have e2 : satAdd (s.pool.house_fees_earned +
        (sess.bet_lamports - satMul sess.bet_lamports 90 / 100))
        s.pool.jackpot_balance =
        s.pool.house_fees_earned +
        (sess.bet_lamports - satMul sess.bet_lamports 90 / 100) +
        s.pool.jackpot_balance :=
      satAdd_eq (by omega)
    rw [e2] at hsle hx1
    refine ⟨⟨?_, ?_, ?_⟩, ?_, ?_⟩
    · dsimp only; omega
    · dsimp only; rw [hx1, hxl]; dsimp only; omega
    · dsimp only
      intro sess2 hmem2
      exact hsess sess2 (List.mem_of_mem_erase hmem2)
    · intro _ _ _; dsimp only; rw [hx1, hxl]
    · intro hcf; exact OpTag.noConfusion hcf
  | emPlayerRefund s sess pk ck x hmem heq =>
    obtain ⟨hst, hpl, hworst, hrle, hxl, hsync, hxs⟩ :=
      emergency_player_refund_ok heq
    obtain ⟨hsle, hx1⟩ := sync_ok hsync
    dsimp only at hsle hx1
    have hbet := hsess sess hmem
    have hrpos : 0 < satMul sess.bet_lamports 96 / 100 :=
      refund_pos hbet (by norm_num)
    have hlt : s.lamports - satMul sess.bet_lamports 96 / 100 - s.rent <
        U64MAX := by omega
    have houter := satAdd_le_of_lt hlt hsle
    have hinner := satAdd_le_of_lt hlt
      (le_trans (Nat.le_add_right _ _) houter)
    have e1 : satAdd s.pool.house_fees_earned
        (sess.bet_lamports - satMul sess.bet_lamports 96 / 100) =
        s.pool.house_fees_earned +
        (sess.bet_lamports - satMul sess.bet_lamports 96 / 100) :=
      satAdd_eq (by omega)
    rw [e1] at hsle hx1 houter
    have e2 : satAdd (s.pool.house_fees_earned +
        (sess.bet_lamports - satMul sess.bet_lamports 96 / 100))
        s.pool.jackpot_balance =
        s.pool.house_fees_earned +
        (sess.bet_lamports - satMul sess.bet_lamports 96 / 100) +
        s.pool.jackpot_balance :=
      satAdd_eq (by omega)
    rw [e2] at hsle hx1
    refine ⟨⟨?_, ?_, ?_⟩, ?_, ?_⟩
    · dsimp only; omega
    · dsimp only; rw [hx1, hxl]; dsimp only; omega
    · dsimp only
      intro sess2 hmem2
      exact hsess sess2 (List.mem_of_mem_erase hmem2)
    · intro _ _ _; dsimp only; rw [hx1, hxl]
    · intro hcf; exact OpTag.noConfusion hcf
  | execWithdraw s now x heq =>
    obtain ⟨req, hreq, hun, hamt, hle, hx2, hsync⟩ := execute_withdrawal_ok heq
    obtain ⟨hsle, hx1⟩ := sync_ok hsync
    dsimp only at hsle hx1
    rw [satAdd_eq hhjM] at hsle hx1
    refine ⟨⟨?_, ?_, ?_⟩, ?_, ?_⟩
    · dsimp only; omega
    · dsimp only; rw [hx1, hx2]; dsimp only; omega
    · dsimp only; exact hsess
    · intro _ _ _; dsimp only; rw [hx1, hx2]
    · intro hcf; exact OpTag.noConfusion hcf
  | claimFees s amount x heq =>
    obtain ⟨hpos, hamt, hlr, hle, hx2, hsync⟩ := claim_house_fees_ok heq
    obtain ⟨hsle, hx1⟩ := sync_ok hsync
    dsimp only at hsle hx1
    rw [satAdd_eq (by omega)] at hsle hx1
    refine ⟨⟨?_, ?_, ?_⟩, ?_, ?_⟩
    · dsimp only; omega
    · dsimp only; rw [hx1, hx2]; dsimp only; omega
    · dsimp only; exact hsess
    · intro _ _ _; dsimp only; rw [hx1, hx2]
    · intro hcf; exact OpTag.noConfusion hcf
  | reinvest s amount x heq =>
    obtain ⟨hpos, hamt, hsync⟩ := reinvest_house_fees_ok heq
    obtain ⟨hsle, hx1⟩ := sync_ok hsync
    dsimp only at hsle hx1
    rw [satAdd_eq (by omega)] at hsle hx1
    refine ⟨⟨?_, ?_, ?_⟩, ?_, ?_⟩
    · dsimp only; omega
    · dsimp only; rw [hx1]; dsimp only; omega
    · dsimp only; exact hsess
    · intro _ _ _; dsimp only; rw [hx1]
    · intro hcf; exact OpTag.noConfusion hcf
  | reqWithdraw s now amount x heq =>
    have hx := request_withdrawal_ok heq
    subst hx
    refine ⟨⟨?_, ?_, ?_⟩, ?_, ?_⟩
    · dsimp only; omega
    · dsimp only; omega
    · dsimp only; exact hsess
    · intro _ hne _; exact absurd rfl hne
    · intro hcf; exact OpTag.noConfusion hcf
  | pause s b =>
    refine ⟨⟨?_, ?_, ?_⟩, ?_, ?_⟩
    · dsimp only; omega
    · dsimp only [set_paused]; omega
    · dsimp only; exact hsess
    · intro _ _ hne; exact absurd rfl hne
    · intro hcf; exact OpTag.noConfusion hcf

/-- Every reachable chain state is well-formed. -/
theorem wf_reachable {s : ChainState} (h : Reachable s) : Wf s := by
  induction h with
  | init rent sessRent hr => exact wf_init rent sessRent hr
  | step hr hstep ih => exact (wf_step ih hstep).1

/-- C1 (amended): after every successful operation from a reachable state,
the pool's physical lamports minus rent cover `house_fees_earned +
jackpot_balance`; for every balance-touching operation except
`claim_forfeit` the stored `total_balance` equals physical minus rent minus
the two reserves; after `claim_forfeit` it equals that quantity minus the
closed session account's rent-exempt balance (Anchor's `close = pool`
credits it to the pool after `sync_pool_balance` already ran; the next sync
absorbs it). -/
theorem c1_pool_invariant (t : OpTag) (s s2 : ChainState)
    (hr : Reachable s) (hstep : Step t s s2) :
    s2.pool.house_fees_earned + s2.pool.jackpot_balance ≤
      s2.lamports - s2.rent ∧
    (t ≠ .claimForfeit → t ≠ .requestWithdrawal → t ≠ .setPaused →
      s2.pool.total_balance = s2.lamports - s2.rent -
        (s2.pool.house_fees_earned + s2.pool.jackpot_balance)) ∧
    (t = .claimForfeit →
      s2.pool.total_balance = s2.lamports - s2.rent -
        (s2.pool.house_fees_earned + s2.pool.jackpot_balance) -
        s2.sessRent) := by
  have h2 := wf_step (wf_reachable hr) hstep
  obtain ⟨⟨hl2, hc2, _⟩, he1, he2⟩ := h2
  exact ⟨by omega, he1, he2⟩

/-- Pool data after funding the C1 example pool with 1 SOL. -/
def c1Pool1 : GlobalPool := { initPool with total_balance := 1000000000 }

/-- C1 example: freshly initialized pool with zero rent reserve and a
0.002 SOL session-account rent. -/
def c1State0 : ChainState := initChainState 0 2000000

/-- C1 example after `fund_pool` of 1 SOL. -/
def c1State1 : ChainState :=
  { c1State0 with pool := c1Pool1, lamports := 1000000000 }

/-- The session `place_bet` creates in the C1 example: 0.01 SOL Flip bet at
slot 100, self-referred. -/
def c1Sess : GameSession :=
  { player := 7
    referrer := 7
    bet_lamports := 10000000
    commitment := []
    commit_slot := 100
    resolve_slot := 110
    forfeit_slot := 1100
    game_type := 0
    game_state := 0
    target_x := 0
    target_y := 0
    target_radius := 0 }

/-- Pool data after the example bet is placed. -/
def c1Pool2 : GlobalPool :=
  { initPool with
    total_balance := 1010000000
    total_wagered := 10000000
    total_bets := 1 }

/-- C1 example after `place_bet`. -/
def c1State2 : ChainState :=
  { c1State1 with
    pool := c1Pool2
    lamports := 1010000000
    sessions := [c1Sess] }

/-- C1 example after `claim_forfeit` at slot 2000: the closed session
account's 0.002 SOL rent lands in the pool after the sync, so the physical
balance is 1.012 SOL while the stored liquid balance stays 1.01 SOL. -/
def c1State3 : ChainState :=
  { c1State2 with
    pool := c1Pool2
    lamports := 1012000000
    sessions := [] }

/-- The C1 example state after the bet is reachable. -/
theorem c1State2_reachable : Reachable c1State2 :=
  Reachable.step
    (Reachable.step (Reachable.init 0 2000000 (by decide))
      (Step.fund c1State0 1000000000 (c1Pool1, 1000000000) rfl))
    (Step.place c1State1 100 7 7 7 0 [] 10000000 (0, 0, 0)
      ⟨c1Pool2, 1010000000, c1Sess⟩ rfl)

/-- Counterexample to C1 as stated: from the reachable state `c1State2`, a
successful `claim_forfeit` leads to a state whose stored `total_balance`
(1.01 SOL) differs from physical lamports minus rent minus reserves
(1.012 SOL) — the closed session account's rent reached the pool after
`sync_pool_balance` ran (lib.rs:262-263 vs the `close = pool` constraint at
lib.rs:1158). -/
theorem c1_counterexample :
    Reachable c1State2 ∧ Step .claimForfeit c1State2 c1State3 ∧
    ¬(c1State3.pool.total_balance = c1State3.lamports - c1State3.rent -
      (c1State3.pool.house_fees_earned + c1State3.pool.jackpot_balance)) :=
  ⟨c1State2_reachable,
   Step.forfeit c1State2 c1Sess 2000
     (c1Pool2, 1012000000, { c1Sess with game_state := 2 }) (by decide)
     rfl,
   by decide⟩

/-- Witness for C1's amended theorem at the `fund_pool` step of the example
trace. -/
theorem c1_witness :
    c1State1.pool.total_balance = c1State1.lamports - c1State1.rent -
      (c1State1.pool.house_fees_earned + c1State1.pool.jackpot_balance) :=
  (c1_pool_invariant .fundPool c1State0 c1State1
    (Reachable.init 0 2000000 (by decide))
    (Step.fund c1State0 1000000000 (c1Pool1, 1000000000) rfl)).2.1
    (by decide) (by decide) (by decide)
